import Mathlib

/-!
Verification of the xclim indicator framework specification.

This file gives a shallow embedding, in Lean 4, of the parts of the
`xclim` repository relevant to the frozen claims: the Python dictionary
model used by the code, `reverse_dict` from `xclim/ensembles/_filters.py`,
the op-dispatch of the ANUCLIM indices in `xclim/indices/_anuclim.py`,
and the `Indicator` call pipeline of `xclim/core/indicator.py`
(registration, parameter parsing, checks, missing-value masking,
metadata formatting and module building).
-/

set_option autoImplicit false

universe u v

namespace Xclim

/-! ## Python dictionary model

Python `dict`s preserve insertion order; assigning to an existing key
updates the value in place, a new key is appended at the end. We model a
dict as an association list with these semantics. -/

variable {K : Type u} {V : Type v}

/-- Keys of a dict, in order. -/
def keys (d : List (K × V)) : List K := d.map Prod.fst

/-- Values of a dict, in order. -/
def vals (d : List (K × V)) : List V := d.map Prod.snd

/-- Lookup of a key, returning the first (and, for a well-formed dict, only)
binding. Models Python `d[k]` / `d.get(k)`. -/
def lookup? [DecidableEq K] (k : K) : List (K × V) → Option V
  | [] => none
  | (k', v) :: rest => if k' = k then some v else lookup? k rest

/-- Assignment `d[k] = v`: update in place when the key exists, append otherwise. -/
def setItem [DecidableEq K] (d : List (K × V)) (k : K) (v : V) : List (K × V) :=
  match d with
  | [] => [(k, v)]
  | (k', v') :: rest => if k' = k then (k', v) :: rest else (k', v') :: setItem rest k v

/-- Dict built from a sequence of key-value pairs, later pairs overriding
earlier ones in place. Models a Python dict comprehension or `dict(pairs)`. -/
def fromPairs [DecidableEq K] (l : List (K × V)) : List (K × V) :=
  l.foldl (fun d kv => setItem d kv.1 kv.2) []

theorem setItem_of_not_mem [DecidableEq K] (d : List (K × V)) (k : K) (v : V)
    (h : k ∉ keys d) : setItem d k v = d ++ [(k, v)] := by
  induction d with
  | nil => rfl
  | cons p rest ih =>
    obtain ⟨k', v'⟩ := p
    have h' : ¬ (k = k') ∧ k ∉ keys rest := by
      simpa [keys, not_or] using h
    have hne : ¬ (k' = k) := fun hh => h'.1 (Eq.symm hh)
    simp only [setItem, if_neg hne, List.cons_append]
    exact congrArg _ (ih h'.2)

theorem fromPairs_aux_of_nodup [DecidableEq K] (l acc : List (K × V))
    (h : (keys (acc ++ l)).Nodup) :
    l.foldl (fun d kv => setItem d kv.1 kv.2) acc = acc ++ l := by
  induction l generalizing acc with
  | nil => simp
  | cons p rest ih =>
    obtain ⟨k, v⟩ := p
    have h1 : (keys acc ++ k :: keys rest).Nodup := by
      simpa [keys] using h
    have hk : k ∉ keys acc := by
      intro hmem
      exact (List.nodup_append.mp h1).2.2 hmem (List.mem_cons_self k (keys rest))
    have h2 : (keys ((acc ++ [(k, v)]) ++ rest)).Nodup := by
      simpa [keys, List.append_assoc] using h
    have step : setItem acc k v = acc ++ [(k, v)] := setItem_of_not_mem acc k v hk
    simp only [List.foldl_cons, step]
    rw [ih (acc ++ [(k, v)]) h2, List.append_assoc]
    simp

/-- When all keys are distinct, building a dict from pairs keeps the pairs as-is. -/
theorem fromPairs_of_nodup [DecidableEq K] (l : List (K × V)) (h : (keys l).Nodup) :
    fromPairs l = l := by
  simpa using fromPairs_aux_of_nodup l [] (by simpa using h)

theorem lookup?_map_swap [DecidableEq K] [DecidableEq V] (d : List (K × V)) (k : K) (v : V)
    (hv : (vals d).Nodup) (hmem : (k, v) ∈ d) :
    lookup? v (d.map (fun kv => (kv.2, kv.1))) = some k := by
  induction d with
  | nil => cases hmem
  | cons p rest ih =>
    obtain ⟨k', v'⟩ := p
    simp only [vals, List.map_cons, List.nodup_cons] at hv
    rcases List.mem_cons.mp hmem with heq | htail
    · injection heq with hk' hv'
      subst hk'
      subst hv'
      simp [lookup?]
    · have hvm : v ∈ rest.map Prod.snd := List.mem_map_of_mem Prod.snd htail
      have hne : ¬ (v' = v) := by
        intro he
        rw [he] at hv
        exact hv.1 hvm
      simp only [List.map_cons, lookup?, if_neg hne]
      exact ih hv.2 htail

end Xclim

namespace Xclim

/-! ## `reverse_dict` (`xclim/ensembles/_filters.py`)

Source:
`def reverse_dict(d): return {v: k for (k, v) in d.items()}`. -/

/-- Reverse dictionary: the Python dict comprehension `\x7bv: k for (k, v) in d.items()\x7d`. -/
def reverse_dict {α : Type u} {β : Type v} [DecidableEq α] [DecidableEq β]
    (d : List (α × β)) : List (β × α) :=
  fromPairs (d.map (fun kv => (kv.2, kv.1)))

/-- Concrete dict with a duplicated value, for the counterexample. -/
def rdCex : List (Nat × Nat) := [(0, 5), (1, 5)]

theorem map_swap_swap {α : Type u} {β : Type v} (l : List (α × β)) :
    (l.map (fun kv => (kv.2, kv.1))).map (fun kv => (kv.2, kv.1)) = l := by
  induction l with
  | nil => rfl
  | cons p t ih => simp [ih]

end Xclim

namespace Xclim

/-! ## Dict update lemmas -/

variable {K : Type u} {V : Type v}

theorem lookup?_setItem_self [DecidableEq K] (d : List (K × V)) (k : K) (v : V) :
    lookup? k (setItem d k v) = some v := by
  induction d with
  | nil => simp [setItem, lookup?]
  | cons p rest ih =>
    obtain ⟨k', v'⟩ := p
    by_cases h : k' = k
    · subst h
      simp [setItem, lookup?]
    · simp only [setItem, if_neg h, lookup?, ih]

theorem lookup?_setItem_ne [DecidableEq K] (d : List (K × V)) (k k' : K) (v : V)
    (h : ¬ (k = k')) : lookup? k' (setItem d k v) = lookup? k' d := by
  induction d with
  | nil =>
    simp only [setItem, lookup?]
    rw [if_neg h]
  | cons p rest ih =>
    obtain ⟨k0, v0⟩ := p
    by_cases h0 : k0 = k
    · subst h0
      have hne : ¬ (k0 = k') := h
      simp [setItem, lookup?, hne]
    · simp only [setItem, if_neg h0, lookup?]
      by_cases h1 : k0 = k'
      · simp [h1]
      · simp only [if_neg h1, ih]

@[simp]
theorem keys_nil : keys ([] : List (K × V)) = [] := rfl

@[simp]
theorem keys_cons (p : K × V) (d : List (K × V)) : keys (p :: d) = p.1 :: keys d := rfl

theorem setItem_cons_hit [DecidableEq K] (k0 : K) (v0 : V) (rest : List (K × V)) (v : V) :
    setItem ((k0, v0) :: rest) k0 v = (k0, v) :: rest := by
  simp [setItem]

theorem setItem_cons_miss [DecidableEq K] (k0 : K) (v0 : V) (rest : List (K × V))
    (k : K) (v : V) (h : ¬ (k0 = k)) :
    setItem ((k0, v0) :: rest) k v = (k0, v0) :: setItem rest k v := by
  simp [setItem, h]

/-- Membership in the keys of an updated dict. -/
theorem mem_keys_setItem [DecidableEq K] (d : List (K × V)) (k n : K) (v : V) :
    n ∈ keys (setItem d k v) ↔ n ∈ keys d ∨ n = k := by
  induction d with
  | nil => simp [setItem]
  | cons p rest ih =>
    obtain ⟨k0, v0⟩ := p
    by_cases h0 : k0 = k
    · subst h0
      rw [setItem_cons_hit]
      simp only [keys_cons, List.mem_cons]
      tauto
    · rw [setItem_cons_miss k0 v0 rest k v h0]
      simp only [keys_cons, List.mem_cons, ih]
      tauto

/-- `setItem` keeps the keys of a well-formed dict distinct. -/
theorem nodup_keys_setItem [DecidableEq K] (d : List (K × V)) (k : K) (v : V)
    (h : (keys d).Nodup) : (keys (setItem d k v)).Nodup := by
  induction d with
  | nil => simp [setItem]
  | cons p rest ih =>
    obtain ⟨k0, v0⟩ := p
    simp only [keys_cons, List.nodup_cons] at h
    by_cases h0 : k0 = k
    · subst h0
      rw [setItem_cons_hit]
      simp only [keys_cons, List.nodup_cons]
      exact h
    · rw [setItem_cons_miss k0 v0 rest k v h0]
      simp only [keys_cons, List.nodup_cons]
      refine ⟨?_, ih h.2⟩
      intro hmem
      rcases (mem_keys_setItem rest k k0 v).mp hmem with hm | hm
      · exact h.1 hm
      · exact h0 hm

/-- Python `d.update(other)`: fold the entries of `other` into `d`. -/
def update [DecidableEq K] (d other : List (K × V)) : List (K × V) :=
  other.foldl (fun acc kv => setItem acc kv.1 kv.2) d

theorem lookup?_eq_none_of_not_mem [DecidableEq K] (d : List (K × V)) (k : K)
    (h : k ∉ keys d) : lookup? k d = none := by
  induction d with
  | nil => rfl
  | cons p rest ih =>
    obtain ⟨k0, v0⟩ := p
    have h' : ¬ (k = k0) ∧ k ∉ keys rest := by simpa [keys, not_or] using h
    simp only [lookup?, if_neg (fun hh => h'.1 (Eq.symm hh))]
    exact ih h'.2

/-- Entries of `d` missing from `other` survive a `d.update(other)`. -/
theorem lookup?_update_of_none [DecidableEq K] (d other : List (K × V)) (k : K)
    (h : lookup? k other = none) : lookup? k (update d other) = lookup? k d := by
  induction other generalizing d with
  | nil => rfl
  | cons p rest ih =>
    obtain ⟨k1, v1⟩ := p
    simp only [lookup?] at h
    by_cases h1 : k1 = k
    · rw [if_pos h1] at h
      cases h
    · rw [if_neg h1] at h
      show lookup? k (update (setItem d k1 v1) rest) = lookup? k d
      rw [ih (setItem d k1 v1) h, lookup?_setItem_ne d k1 k v1 h1]

/-- Entries of `other` (with distinct keys) win in a `d.update(other)`. -/
theorem lookup?_update_of_some [DecidableEq K] (d other : List (K × V)) (k : K) (v : V)
    (hn : (keys other).Nodup) (h : lookup? k other = some v) :
    lookup? k (update d other) = some v := by
  induction other generalizing d with
  | nil => cases h
  | cons p rest ih =>
    obtain ⟨k1, v1⟩ := p
    simp only [keys_cons, List.nodup_cons] at hn
    simp only [lookup?] at h
    by_cases h1 : k1 = k
    · rw [if_pos h1] at h
      injection h with hv
      subst h1
      subst hv
      have hnone : lookup? k1 rest = none :=
        lookup?_eq_none_of_not_mem rest k1 hn.1
      show lookup? k1 (update (setItem d k1 v1) rest) = some v1
      rw [lookup?_update_of_none (setItem d k1 v1) rest k1 hnone,
        lookup?_setItem_self d k1 v1]
    · rw [if_neg h1] at h
      exact ih (setItem d k1 v1) hn.2 h

/-- Keys after `d.update(other)` are the union of both key sets. -/
theorem mem_keys_update [DecidableEq K] (d other : List (K × V)) (n : K) :
    n ∈ keys (update d other) ↔ n ∈ keys d ∨ n ∈ keys other := by
  induction other generalizing d with
  | nil => simp [update, keys]
  | cons p rest ih =>
    obtain ⟨k1, v1⟩ := p
    show n ∈ keys (update (setItem d k1 v1) rest) ↔ _
    rw [ih (setItem d k1 v1), mem_keys_setItem d k1 n v1]
    simp only [keys, List.map_cons, List.mem_cons]
    tauto

/-- `d.update(other)` keeps the keys of a well-formed dict distinct. -/
theorem nodup_keys_update [DecidableEq K] (d other : List (K × V))
    (h : (keys d).Nodup) : (keys (update d other)).Nodup := by
  induction other generalizing d with
  | nil => exact h
  | cons p rest ih =>
    exact ih (setItem d p.1 p.2) (nodup_keys_setItem d p.1 p.2 h)

/-- Dicts built by `fromPairs` have distinct keys. -/
theorem nodup_keys_fromPairs [DecidableEq K] (l : List (K × V)) :
    (keys (fromPairs l)).Nodup := by
  have : fromPairs l = update [] l := rfl
  rw [this]
  exact nodup_keys_update [] l (by simp [keys])

/-- Lookup of a keyed image of a list with distinct keys finds the mapped element. -/
theorem lookup?_keyed_map {A : Type u} {B : Type v} [DecidableEq K]
    (f : A → K) (g : A → B) (l : List A) (hn : (l.map f).Nodup) (a : A) (ha : a ∈ l) :
    lookup? (f a) (l.map (fun x => (f x, g x))) = some (g a) := by
  induction l with
  | nil => cases ha
  | cons q rest ih =>
    simp only [List.map_cons, List.nodup_cons] at hn
    rcases List.mem_cons.mp ha with heq | htail
    · subst heq
      simp [lookup?]
    · have hne : ¬ (f q = f a) := by
        intro he
        exact hn.1 (he ▸ List.mem_map_of_mem f htail)
      simp only [List.map_cons, lookup?, if_neg hne]
      exact ih hn.2 htail

/-- Membership lookup for a binding present in a dict with distinct keys. -/
theorem lookup?_of_mem_nodup [DecidableEq K] (d : List (K × V)) (k : K) (v : V)
    (hmem : (k, v) ∈ d) (hn : (keys d).Nodup) : lookup? k d = some v := by
  induction d with
  | nil => cases hmem
  | cons p rest ih =>
    obtain ⟨k0, v0⟩ := p
    simp only [keys_cons, List.nodup_cons] at hn
    rcases List.mem_cons.mp hmem with heq | htail
    · injection heq with h1 h2
      subst h1
      subst h2
      simp [lookup?]
    · have hne : ¬ (k0 = k) := by
        intro he
        subst he
        exact hn.1 (List.mem_map_of_mem Prod.fst htail)
      simp only [lookup?, if_neg hne]
      exact ih htail hn.2

/-- Lookup through a value-only map of the dict. -/
theorem lookup?_map_snd {W : Type} [DecidableEq K] (d : List (K × V)) (f : V → W) (k : K) :
    lookup? k (d.map (fun kv => (kv.1, f kv.2))) = (lookup? k d).map f := by
  induction d with
  | nil => rfl
  | cons p rest ih =>
    obtain ⟨k0, v0⟩ := p
    by_cases h : k0 = k
    · simp [lookup?, h]
    · simp only [List.map_cons, lookup?, if_neg h, ih]

/-- Appending a differently-keyed binding does not change a lookup. -/
theorem lookup?_append_single_ne [DecidableEq K] (d : List (K × V)) (k1 k : K) (v1 : V)
    (h : ¬ (k1 = k)) : lookup? k (d ++ [(k1, v1)]) = lookup? k d := by
  induction d with
  | nil => simp [lookup?, h]
  | cons p rest ih =>
    obtain ⟨k0, v0⟩ := p
    by_cases h0 : k0 = k
    · simp [lookup?, h0]
    · simp only [List.cons_append, lookup?, if_neg h0]
      exact ih

/-- A successful lookup survives appending entries. -/
theorem lookup?_append_left_of_some [DecidableEq K] (d e : List (K × V)) (k : K) (v : V)
    (h : lookup? k d = some v) : lookup? k (d ++ e) = some v := by
  induction d with
  | nil => cases h
  | cons p rest ih =>
    obtain ⟨k0, v0⟩ := p
    simp only [lookup?] at h
    by_cases h0 : k0 = k
    · rw [if_pos h0] at h
      simp [lookup?, h0, h]
    · rw [if_neg h0] at h
      simp only [List.cons_append, lookup?, if_neg h0]
      exact ih h

/-- Keys of a filtered dict are among the original keys. -/
theorem mem_keys_filter_sub [DecidableEq K] (d : List (K × V)) (p : K × V → Bool) (n : K)
    (h : n ∈ keys (d.filter p)) : n ∈ keys d :=
  ((List.filter_sublist d).map Prod.fst).subset h

/-- Filtering a dict with distinct keys keeps or drops the unique binding. -/
theorem lookup?_filter_of_some [DecidableEq K] (d : List (K × V)) (p : K × V → Bool)
    (k : K) (v : V) (hn : (keys d).Nodup) (h : lookup? k d = some v) :
    lookup? k (d.filter p) = if p (k, v) then some v else none := by
  induction d with
  | nil => cases h
  | cons q rest ih =>
    obtain ⟨k0, v0⟩ := q
    simp only [keys_cons, List.nodup_cons] at hn
    simp only [lookup?] at h
    by_cases h0 : k0 = k
    · rw [if_pos h0] at h
      injection h with hv
      subst h0
      subst hv
      have hnone : lookup? k0 (rest.filter p) = none := by
        apply lookup?_eq_none_of_not_mem
        intro hc
        exact hn.1 (mem_keys_filter_sub rest p k0 hc)
      by_cases hp : p (k0, v0) = true
      · simp [List.filter_cons, hp, lookup?]
      · simp only [Bool.not_eq_true] at hp
        simp [List.filter_cons, hp, hnone]
    · rw [if_neg h0] at h
      by_cases hp : p (k0, v0) = true
      · simp only [List.filter_cons, hp, if_true, lookup?, if_neg h0]
        exact ih hn.2 h
      · simp only [Bool.not_eq_true] at hp
        simp only [List.filter_cons, hp, Bool.false_eq_true, if_false]
        exact ih hn.2 h

/-- Filtering with a predicate false at a key removes every binding of it. -/
theorem lookup?_filter_none [DecidableEq K] (d : List (K × V)) (p : K × V → Bool)
    (k : K) (h : ∀ v, p (k, v) = false) : lookup? k (d.filter p) = none := by
  induction d with
  | nil => rfl
  | cons q rest ih =>
    obtain ⟨k0, v0⟩ := q
    by_cases hp : p (k0, v0) = true
    · have h0 : ¬ (k0 = k) := by
        intro he
        subst he
        rw [h v0] at hp
        cases hp
      simp only [List.filter_cons, hp, if_true, lookup?, if_neg h0]
      exact ih
    · simp only [Bool.not_eq_true] at hp
      simp only [List.filter_cons, hp, Bool.false_eq_true, if_false]
      exact ih

/-- Lookup through a key-dependent value map of the dict. -/
theorem lookup?_map_keyfun {W : Type} [DecidableEq K] (d : List (K × V)) (g : K → V → W)
    (k : K) :
    lookup? k (d.map (fun kv => (kv.1, g kv.1 kv.2))) = (lookup? k d).map (g k) := by
  induction d with
  | nil => rfl
  | cons p rest ih =>
    obtain ⟨k0, v0⟩ := p
    by_cases h : k0 = k
    · subst h
      simp [lookup?]
    · simp only [List.map_cons, lookup?, if_neg h, ih]

/-- Keys are unchanged by a key-dependent value map. -/
theorem keys_map_keyfun {W : Type} (d : List (K × V)) (g : K → V → W) :
    keys (d.map (fun kv => (kv.1, g kv.1 kv.2))) = keys d := by
  induction d with
  | nil => rfl
  | cons p rest ih => simp only [List.map_cons, keys_cons, ih]

/-! ## Python string primitives

The Lean `String` library functions (`splitOn`, `startsWith`, `toUpper`) do
not reduce in the kernel, so the Python string operations used by
`IndicatorRegistrar.__new__` are re-implemented structurally over the
character list. They follow CPython semantics for `str.split('.')`,
`str.startswith` and ASCII `str.upper`. -/

/-- Accumulator-based splitting of a character list at `.` characters. -/
def splitDotAux : List Char → List Char → List String
  | [], acc => [String.mk acc.reverse]
  | c :: rest, acc =>
    if c = '.' then String.mk acc.reverse :: splitDotAux rest []
    else splitDotAux rest (c :: acc)

/-- Python `s.split(".")`. -/
def pySplitDot (s : String) : List String := splitDotAux s.data []

/-- Boolean test that the first character list begins the second. -/
def leadsWith : List Char → List Char → Bool
  | [], _ => true
  | _ :: _, [] => false
  | p :: ps, c :: cs => if p = c then leadsWith ps cs else false

/-- Python `s.startswith(pre)`. -/
def pyStartsWith (s pre : String) : Bool := leadsWith pre.data s.data

/-- ASCII upper-casing of one character. -/
def pyUpperChar (c : Char) : Char :=
  if 'a' ≤ c ∧ c ≤ 'z' then Char.ofNat (c.toNat - 32) else c

/-- Python `s.upper()` (ASCII range, which covers identifier names). -/
def pyUpper (s : String) : String := String.mk (s.data.map pyUpperChar)

/-! ## Python exceptions -/

/-- Exceptions raised by the embedded code paths. -/
inductive PyErr where
  | valueError (msg : String)
  | notImplementedError (msg : String)
  | keyError (key : String)
  | indexError (msg : String)
  | attributeError (msg : String)
  deriving DecidableEq, Repr

end Xclim

namespace Xclim.Registrar

/-! ## Class registration (`IndicatorRegistrar.__new__`)

Source, `xclim/core/indicator.py`:

    name = cls.__name__.upper()
    module = cls.__module__
    if module.startswith("xclim.indicators"):
        submodule = module.split(".")[2]
        if submodule not in ["atmos", "generic", "land", "ocean", "seaIce"]:
            name = f"..."   # submodule-prefixed
    else:
        name = f"..."       # module-prefixed
    if name in registry: warn(overwrite)
    registry[name] = cls
    cls._registry_id = name

`module.split(".")[2]` raises `IndexError` when the module name starts with
the text "xclim.indicators" but has fewer than three dot-separated parts. -/

/-- Standard submodules of `xclim.indicators` that get no registry prefix. -/
def standardSubmodules : List String := ["atmos", "generic", "land", "ocean", "seaIce"]

/-- Registry key computed by `IndicatorRegistrar.__new__` from the class name
and the module name, `Except` because the `[2]` subscript can raise. -/
def registryKey (clsName module : String) : Except PyErr String :=
  let name := pyUpper clsName
  if pyStartsWith module "xclim.indicators" then
    match (pySplitDot module)[2]? with
    | none => Except.error (.indexError "list index out of range")
    | some submodule =>
      if submodule ∈ standardSubmodules then Except.ok name
      else Except.ok (submodule ++ "." ++ name)
  else
    Except.ok (module ++ "." ++ name)

variable {C : Type}

/-- Registration step of `IndicatorRegistrar.__new__`: compute the key, record
whether an overwrite warning fires, overwrite the registry entry. Returns
`(registry_id, new registry, warned)`. -/
def registerCls (st : List (String × C)) (clsName module : String) (cls : C) :
    Except PyErr (String × List (String × C) × Bool) := do
  let name ← registryKey clsName module
  pure (name, setItem st name cls, (lookup? name st).isSome)

end Xclim.Registrar

/-- C4 counterexample: for a class `Foo` declared in a module named
`xclim.indicators2` — a module outside `xclim.indicators`, for which the claim
promises registration under the key "xclim.indicators2.FOO" — instantiation
raises `IndexError` (the `startswith` test matches the text but
`module.split(".")` has no third element), so nothing is registered. -/
theorem registrar_outside_module_cex :
    Xclim.Registrar.registerCls ([] : List (String × Nat)) "Foo" "xclim.indicators2" 7 =
      Except.error (Xclim.PyErr.indexError "list index out of range") := rfl

/-- C4 (amended): instantiation registers the new class under the upper-cased
class name — prefixed with the submodule name when the module is a
non-standard dotted submodule of `xclim.indicators`, or with the full module
name when the module name does not start with the text "xclim.indicators" —
overwriting any previous entry under that key (with a warning exactly when the
key was already present), so that afterwards the registry maps the key to the
newest class; a module name that starts with the text "xclim.indicators" but
has fewer than three dot-separated parts instead raises `IndexError`. -/
theorem registrar_registers_newest {C : Type} (st : List (String × C))
    (clsName module : String) (cls : C) :
    (¬ Xclim.pyStartsWith module "xclim.indicators" = true →
      Xclim.Registrar.registryKey clsName module =
        Except.ok (module ++ "." ++ Xclim.pyUpper clsName)) ∧
    (∀ sub, Xclim.pyStartsWith module "xclim.indicators" = true →
      (Xclim.pySplitDot module)[2]? = some sub →
      Xclim.Registrar.registryKey clsName module =
        Except.ok (if sub ∈ Xclim.Registrar.standardSubmodules then Xclim.pyUpper clsName
          else sub ++ "." ++ Xclim.pyUpper clsName)) ∧
    (Xclim.pyStartsWith module "xclim.indicators" = true →
      (Xclim.pySplitDot module)[2]? = none →
      Xclim.Registrar.registryKey clsName module =
        Except.error (Xclim.PyErr.indexError "list index out of range")) ∧
    (∀ name st' warned,
      Xclim.Registrar.registerCls st clsName module cls = Except.ok (name, st', warned) →
      Xclim.lookup? name st' = some cls ∧
        warned = (Xclim.lookup? name st).isSome ∧
        ∀ k, ¬ (k = name) → Xclim.lookup? k st' = Xclim.lookup? k st) := by
  refine ⟨?_, ?_, ?_, ?_⟩
  · intro h
    simp [Xclim.Registrar.registryKey, h]
  · intro sub hs hsub
    simp only [Xclim.Registrar.registryKey, hs, if_true, hsub]
    split <;> rfl
  · intro hs hsub
    simp [Xclim.Registrar.registryKey, hs, hsub]
  · intro name st' warned hok
    have hdef : Xclim.Registrar.registerCls st clsName module cls =
        Except.bind (Xclim.Registrar.registryKey clsName module)
          (fun n => Except.ok (n, Xclim.setItem st n cls, (Xclim.lookup? n st).isSome)) := rfl
    rw [hdef] at hok
    cases hkey : Xclim.Registrar.registryKey clsName module with
    | error e =>
      rw [hkey] at hok
      simp [Except.bind] at hok
    | ok key =>
      rw [hkey] at hok
      simp only [Except.bind] at hok
      injection hok with htup
      injection htup with h1 h23
      injection h23 with h2 h3
      subst h1
      subst h2
      subst h3
      exact ⟨Xclim.lookup?_setItem_self st key cls, rfl,
        fun k hk => Xclim.lookup?_setItem_ne st key k cls (fun he => hk (Eq.symm he))⟩

/-- C4 witness: the amended theorem applied to the concrete class `Foo`
declared in the non-standard submodule `xclim.indicators.mymod`, against a
registry that already holds key "MYMOD.FOO" — with a fully computed key and
registry update. -/
theorem registrar_registers_newest_witness :
    Xclim.pyStartsWith "xclim.indicators.mymod" "xclim.indicators" = true ∧
      (Xclim.pySplitDot "xclim.indicators.mymod")[2]? = some "mymod" ∧
      Xclim.Registrar.registryKey "Foo" "xclim.indicators.mymod" =
        Except.ok (if "mymod" ∈ Xclim.Registrar.standardSubmodules then Xclim.pyUpper "Foo"
          else "mymod" ++ "." ++ Xclim.pyUpper "Foo") ∧
      (Xclim.lookup? "mymod.FOO"
          (Xclim.setItem [("mymod.FOO", (1 : Nat))] "mymod.FOO" 2) = some 2 ∧
        true = (Xclim.lookup? "mymod.FOO" [("mymod.FOO", (1 : Nat))]).isSome ∧
        ∀ k, ¬ (k = "mymod.FOO") →
          Xclim.lookup? k (Xclim.setItem [("mymod.FOO", (1 : Nat))] "mymod.FOO" 2) =
            Xclim.lookup? k [("mymod.FOO", (1 : Nat))]) :=
  ⟨by decide, by decide,
    (registrar_registers_newest [("mymod.FOO", (1 : Nat))] "Foo" "xclim.indicators.mymod" 2).2.1
      "mymod" (by decide) (by decide),
    (registrar_registers_newest [("mymod.FOO", (1 : Nat))] "Foo" "xclim.indicators.mymod" 2).2.2.2
      "mymod.FOO" (Xclim.setItem [("mymod.FOO", (1 : Nat))] "mymod.FOO" 2) true rfl⟩

namespace Xclim.ParseIndice

/-! ## Compute-function parsing (`Indicator._parse_indice`)

Source, `xclim/core/indicator.py`: the docstring's `Parameters` section is
parsed into a dict (here: name to description), the names are sanitized by
removing every `*`, a `ValueError` is raised when a sanitized documented name
is not in the compute function's signature; otherwise one `Parameter` per
signature argument is built, with `compute_name`, `default` and `kind` taken
from the signature (kind via `infer_kind_from_parameter`, abstracted here as
a per-argument datum) and `units` taken from the `declare_units` decoration
(`compute.in_units`) when present. -/

/-- Signature argument of the compute function: its name, its default
(`none` models `inspect._empty`) and the kind inferred by
`infer_kind_from_parameter`. -/
structure SigParam (Val : Type) where
  name : String
  default : Option Val
  kind : Nat
  deriving DecidableEq

/-- Embedding of the `Parameter` dataclass fields relevant to parsing
(`choices` and `value` stay at their `_empty` defaults here and are
omitted). `none` in `default` models `inspect._empty`, in `units` the
`_empty` sentinel. -/
structure Parameter (Val : Type) where
  kind : Nat := 0
  default : Option Val := none
  compute_name : String := ""
  description : String := ""
  units : Option String := none
  deriving DecidableEq

/-- Python `name.replace("*", "")`. -/
def removeStar (s : String) : String := String.mk (s.data.filter (fun c => ¬ (c = '*')))

/-- Sanitized docstring parameters dict: `*` stripped from the names, later
duplicates overriding earlier entries (Python dict assignment). -/
def sanitizeDocParams (docParams : List (String × String)) : List (String × String) :=
  fromPairs (docParams.map (fun kv => (removeStar kv.1, kv.2)))

/-- The `Parameter` built for one signature argument by the parsing loop. -/
def mkParam {Val : Type} (p : SigParam Val) (sanitized : List (String × String))
    (hasInUnits : Bool) (in_units : List (String × String)) : Parameter Val :=
  { compute_name := p.name, default := p.default, kind := p.kind,
    description := (lookup? p.name sanitized).getD "",
    units := if hasInUnits then lookup? p.name in_units else none }

/-- Embedding of `Indicator._parse_indice` (the parameter-dict half; the
returned docstring metadata does not matter for this claim). `hasInUnits` and
`in_units` model `hasattr(compute, "in_units")` and `compute.in_units`. -/
def _parse_indice {Val : Type} [DecidableEq Val] (docParams : List (String × String))
    (sig : List (SigParam Val)) (hasInUnits : Bool) (in_units : List (String × String)) :
    Except PyErr (List (String × Parameter Val)) :=
  if (keys (sanitizeDocParams docParams)).all (fun n => sig.any (fun p => p.name = n)) then
    Except.ok (update
      ((sanitizeDocParams docParams).map
        (fun kv => (kv.1, ({ description := kv.2 } : Parameter Val))))
      (sig.map (fun p => (p.name, mkParam p (sanitizeDocParams docParams) hasInUnits in_units))))
  else
    Except.error (.valueError "Malformed docstring: documented parameters absent from the signature")

end Xclim.ParseIndice

/-- C6: when the docstring's Parameters section documents a name (after
stripping `*`) that is not in the compute signature, `_parse_indice` raises
`ValueError`; when every documented name is in the signature, it returns a
dict with one `Parameter` per signature argument (keys exactly the signature
argument names, pairwise distinct), each taking `default` and `kind` from the
signature and `units` from the `declare_units` decoration when present. -/
theorem parse_indice_spec {Val : Type} [DecidableEq Val]
    (docParams : List (String × String)) (sig : List (Xclim.ParseIndice.SigParam Val))
    (hasInUnits : Bool) (in_units : List (String × String))
    (hsig : (sig.map Xclim.ParseIndice.SigParam.name).Nodup) :
    (¬ ((Xclim.keys (Xclim.ParseIndice.sanitizeDocParams docParams)).all
        (fun n => sig.any (fun p => p.name = n)) = true) →
      ∃ m, Xclim.ParseIndice._parse_indice docParams sig hasInUnits in_units =
        Except.error (Xclim.PyErr.valueError m)) ∧
    (((Xclim.keys (Xclim.ParseIndice.sanitizeDocParams docParams)).all
        (fun n => sig.any (fun p => p.name = n)) = true) →
      ∃ ps, Xclim.ParseIndice._parse_indice docParams sig hasInUnits in_units = Except.ok ps ∧
        (Xclim.keys ps).Nodup ∧
        (∀ n, n ∈ Xclim.keys ps ↔ n ∈ sig.map Xclim.ParseIndice.SigParam.name) ∧
        (∀ p ∈ sig, Xclim.lookup? p.name ps = some
          { kind := p.kind, default := p.default, compute_name := p.name,
            description :=
              (Xclim.lookup? p.name (Xclim.ParseIndice.sanitizeDocParams docParams)).getD "",
            units := if hasInUnits then Xclim.lookup? p.name in_units else none })) := by
  constructor
  · intro h
    exact ⟨"Malformed docstring: documented parameters absent from the signature",
      by unfold Xclim.ParseIndice._parse_indice; rw [if_neg h]⟩
  · intro h
    refine ⟨Xclim.update
        ((Xclim.ParseIndice.sanitizeDocParams docParams).map
          (fun kv => (kv.1, ({ description := kv.2 } : Xclim.ParseIndice.Parameter Val))))
        (sig.map (fun p => (p.name, Xclim.ParseIndice.mkParam p
          (Xclim.ParseIndice.sanitizeDocParams docParams) hasInUnits in_units))),
      ?_, ?_, ?_, ?_⟩
    · unfold Xclim.ParseIndice._parse_indice
      rw [if_pos h]
    · apply Xclim.nodup_keys_update
      have hkeys : Xclim.keys
          ((Xclim.ParseIndice.sanitizeDocParams docParams).map
            (fun kv => (kv.1, ({ description := kv.2 } : Xclim.ParseIndice.Parameter Val)))) =
          Xclim.keys (Xclim.ParseIndice.sanitizeDocParams docParams) := by
        simp [Xclim.keys]
      rw [hkeys]
      exact Xclim.nodup_keys_fromPairs _
    · intro n
      rw [Xclim.mem_keys_update]
      have hkeys1 : Xclim.keys
          ((Xclim.ParseIndice.sanitizeDocParams docParams).map
            (fun kv => (kv.1, ({ description := kv.2 } : Xclim.ParseIndice.Parameter Val)))) =
          Xclim.keys (Xclim.ParseIndice.sanitizeDocParams docParams) := by
        simp [Xclim.keys]
      have hkeys2 : Xclim.keys
          (sig.map (fun p => (p.name,
            Xclim.ParseIndice.mkParam p (Xclim.ParseIndice.sanitizeDocParams docParams)
              hasInUnits in_units))) = sig.map Xclim.ParseIndice.SigParam.name := by
        simp [Xclim.keys]
      rw [hkeys1, hkeys2]
      constructor
      · intro hn
        rcases hn with hn | hn
        · have h2 := List.all_eq_true.mp h n hn
          rcases List.any_eq_true.mp h2 with ⟨q, hq, hqn⟩
          have hqe : q.name = n := of_decide_eq_true hqn
          exact hqe ▸ List.mem_map_of_mem Xclim.ParseIndice.SigParam.name hq
        · exact hn
      · exact Or.inr
    · intro p hp
      apply Xclim.lookup?_update_of_some
      · simp [Xclim.keys]
        exact hsig
      · exact Xclim.lookup?_keyed_map Xclim.ParseIndice.SigParam.name _ sig hsig p hp

namespace Xclim.ParseIndice

/-- Concrete docstring parameters for the C6 witness: one documented name
carrying a `*`. -/
def docW : List (String × String) := [("*temp", "the temperature")]

/-- Concrete compute signature for the C6 witness. -/
def sigW : List (SigParam Nat) := [⟨"temp", some 3, 1⟩, ⟨"freq", none, 2⟩]

end Xclim.ParseIndice

/-- C6 witness: the parsing theorem applied to a compute function with
signature `(temp, freq)`, a docstring documenting `*temp`, and a
`declare_units` decoration giving `temp` the units "K". -/
theorem parse_indice_spec_witness :
    (Xclim.ParseIndice.sigW.map Xclim.ParseIndice.SigParam.name).Nodup ∧
      ((Xclim.keys (Xclim.ParseIndice.sanitizeDocParams Xclim.ParseIndice.docW)).all
        (fun n => Xclim.ParseIndice.sigW.any (fun p => p.name = n)) = true) ∧
      (∃ ps, Xclim.ParseIndice._parse_indice Xclim.ParseIndice.docW Xclim.ParseIndice.sigW
          true [("temp", "K")] = Except.ok ps ∧
        (Xclim.keys ps).Nodup ∧
        (∀ n, n ∈ Xclim.keys ps ↔
          n ∈ Xclim.ParseIndice.sigW.map Xclim.ParseIndice.SigParam.name) ∧
        (∀ p ∈ Xclim.ParseIndice.sigW, Xclim.lookup? p.name ps = some
          { kind := p.kind, default := p.default, compute_name := p.name,
            description := (Xclim.lookup? p.name
              (Xclim.ParseIndice.sanitizeDocParams Xclim.ParseIndice.docW)).getD "",
            units := if true then Xclim.lookup? p.name [("temp", "K")] else none })) :=
  ⟨by decide, by decide,
    (parse_indice_spec Xclim.ParseIndice.docW Xclim.ParseIndice.sigW true [("temp", "K")]
      (by decide)).2 (by decide)⟩

namespace Xclim.Anuclim

/-! ## ANUCLIM op dispatch (`xclim/indices/_anuclim.py`)

The five selection functions validate their `op` argument against a literal
list, raising `NotImplementedError` otherwise, and then look the op up in the
module-level tables `_np_ops` / `_xr_argops`. The array computations
(`_to_quarter`, `select_resample_op`, `_from_other_arg`, `rate2amount`,
resampling) are delegated to xarray/numpy and are abstracted here: the
already-quarterized inputs arrive as `Except` values (quarterization itself
can raise) and the numeric kernels are opaque function parameters. -/

/-- Result of an `xarray.DataArray.argmax` / `argmin` used as a table value. -/
inductive XrArgOp where
  | argmax
  | argmin
  deriving DecidableEq, Repr

/-- Table `_xr_argops` of the source ("dryest" is kept as a common spelling mistake). -/
def xr_argops : List (String × XrArgOp) :=
  [("wettest", .argmax), ("warmest", .argmax), ("dryest", .argmin),
    ("driest", .argmin), ("coldest", .argmin)]

/-- Table `_np_ops` of the source ("dryest" is kept as a common spelling mistake). -/
def np_ops : List (String × String) :=
  [("wettest", "max"), ("warmest", "max"), ("dryest", "min"),
    ("driest", "min"), ("coldest", "min")]

variable {Arr : Type}

/-- Embedding of `tg_mean_warmcold_quarter`: quarterize `tas`, validate `op`
against `\x7b"warmest", "coldest"\x7d`, then select-resample with the numpy op
from `_np_ops`. -/
def tg_mean_warmcold_quarter (tasQ : Except PyErr Arr)
    (select_resample_op : Arr → String → String → Arr)
    (op freq : String) : Except PyErr Arr := do
  let out ← tasQ
  if op ∈ (["warmest", "coldest"] : List String) then
    match lookup? op np_ops with
    | some oper => pure (select_resample_op out oper freq)
    | none => throw (.keyError op)
  else
    throw (.notImplementedError
      ("op parameter (" ++ op ++ ") may only be one of \"warmest\", \"coldest\""))

/-- Embedding of `tg_mean_wetdry_quarter`: quarterize `tas` and `pr`, validate
`op` against `\x7b"wettest", "driest", "dryest"\x7d`, then pick `tas` values at the
index given by the xarray arg-op from `_xr_argops` applied to `pr`. -/
def tg_mean_wetdry_quarter (tasQ prQ : Except PyErr Arr)
    (from_other_arg : Arr → Arr → XrArgOp → String → Arr)
    (op freq : String) : Except PyErr Arr := do
  let tas_qrt ← tasQ
  let pr_qrt ← prQ
  if op ∈ (["wettest", "driest", "dryest"] : List String) then
    match lookup? op xr_argops with
    | some xr_op => pure (from_other_arg pr_qrt tas_qrt xr_op freq)
    | none => throw (.keyError op)
  else
    throw (.notImplementedError
      ("op parameter (" ++ op ++ ") may only be one of \"wettest\" or \"driest\""))

/-- Embedding of `prcptot_wetdry_quarter`: quarterize `pr`, validate `op`
against `\x7b"wettest", "driest", "dryest"\x7d`, then select-resample with the
numpy op from `_np_ops`. -/
def prcptot_wetdry_quarter (prQ : Except PyErr Arr)
    (select_resample_op : Arr → String → String → Arr)
    (op freq : String) : Except PyErr Arr := do
  let pr_qrt ← prQ
  if op ∈ (["wettest", "driest", "dryest"] : List String) then
    match lookup? op np_ops with
    | some oper => pure (select_resample_op pr_qrt oper freq)
    | none => throw (.keyError op)
  else
    throw (.notImplementedError
      ("op parameter (" ++ op ++ ") may only be one of \"wettest\" or \"driest\""))

/-- Embedding of `prcptot_warmcold_quarter`: quarterize `tas` and `pr`,
validate `op` against `\x7b"warmest", "coldest"\x7d`, then pick `pr` values at the
index given by the xarray arg-op from `_xr_argops` applied to `tas`. -/
def prcptot_warmcold_quarter (prQ tasQ : Except PyErr Arr)
    (from_other_arg : Arr → Arr → XrArgOp → String → Arr)
    (op freq : String) : Except PyErr Arr := do
  let tas_qrt ← tasQ
  let pr_qrt ← prQ
  if op ∈ (["warmest", "coldest"] : List String) then
    match lookup? op xr_argops with
    | some xr_op => pure (from_other_arg tas_qrt pr_qrt xr_op freq)
    | none => throw (.keyError op)
  else
    throw (.notImplementedError
      ("op parameter (" ++ op ++ ") may only be one of \"warmest\", \"coldest\""))

/-- Embedding of `prcptot_wetdry_period`: convert `pr` to amounts, validate
`op` against `\x7b"wettest", "driest", "dryest"\x7d`, then resample with the numpy
op from `_np_ops`. -/
def prcptot_wetdry_period (pram : Except PyErr Arr)
    (resample_op : Arr → String → String → Arr)
    (op freq : String) : Except PyErr Arr := do
  let p ← pram
  if op ∈ (["wettest", "driest", "dryest"] : List String) then
    match lookup? op np_ops with
    | some oper => pure (resample_op p oper freq)
    | none => throw (.keyError op)
  else
    throw (.notImplementedError
      ("op parameter (" ++ op ++ ") may only be one of \"wettest\" or \"driest\""))

/-- Helper predicate: the computation raised `NotImplementedError`. -/
def raisesNotImplemented (r : Except PyErr Arr) : Prop :=
  ∃ m, r = Except.error (PyErr.notImplementedError m)

/-- Helper predicate: the computation succeeded. -/
def succeeds (r : Except PyErr Arr) : Prop :=
  ∃ a, r = Except.ok a

instance (r : Except PyErr Arr) [DecidableEq Arr] : Decidable (succeeds r) := by
  unfold succeeds
  cases r with
  | error e => exact .isFalse (by simp)
  | ok a => exact .isTrue ⟨a, rfl⟩

end Xclim.Anuclim

/-- C9: each ANUCLIM selection function raises `NotImplementedError` for every
`op` outside its allowed set (once its quarterization inputs are available);
the wet/dry functions accept the misspelling "dryest" as a synonym of
"driest", both mapping to the minimum operation in `_np_ops` / `_xr_argops`;
and a call with an allowed `op` never reaches an error branch. -/
theorem anuclim_op_validation {Arr : Type} (tasQ prQ pram : Arr)
    (sel res : Arr → String → String → Arr)
    (foa : Arr → Arr → Xclim.Anuclim.XrArgOp → String → Arr)
    (op freq : String) :
    (op ∉ (["warmest", "coldest"] : List String) →
      Xclim.Anuclim.raisesNotImplemented
          (Xclim.Anuclim.tg_mean_warmcold_quarter (pure tasQ) sel op freq) ∧
        Xclim.Anuclim.raisesNotImplemented
          (Xclim.Anuclim.prcptot_warmcold_quarter (pure prQ) (pure tasQ) foa op freq)) ∧
    (op ∉ (["wettest", "driest", "dryest"] : List String) →
      Xclim.Anuclim.raisesNotImplemented
          (Xclim.Anuclim.tg_mean_wetdry_quarter (pure tasQ) (pure prQ) foa op freq) ∧
        Xclim.Anuclim.raisesNotImplemented
          (Xclim.Anuclim.prcptot_wetdry_quarter (pure prQ) sel op freq) ∧
        Xclim.Anuclim.raisesNotImplemented
          (Xclim.Anuclim.prcptot_wetdry_period (pure pram) res op freq)) ∧
    (op ∈ (["warmest", "coldest"] : List String) →
      Xclim.Anuclim.succeeds
          (Xclim.Anuclim.tg_mean_warmcold_quarter (pure tasQ) sel op freq) ∧
        Xclim.Anuclim.succeeds
          (Xclim.Anuclim.prcptot_warmcold_quarter (pure prQ) (pure tasQ) foa op freq)) ∧
    (op ∈ (["wettest", "driest", "dryest"] : List String) →
      Xclim.Anuclim.succeeds
          (Xclim.Anuclim.tg_mean_wetdry_quarter (pure tasQ) (pure prQ) foa op freq) ∧
        Xclim.Anuclim.succeeds
          (Xclim.Anuclim.prcptot_wetdry_quarter (pure prQ) sel op freq) ∧
        Xclim.Anuclim.succeeds
          (Xclim.Anuclim.prcptot_wetdry_period (pure pram) res op freq)) ∧
    (Xclim.lookup? "dryest" Xclim.Anuclim.np_ops = some "min" ∧
      Xclim.lookup? "driest" Xclim.Anuclim.np_ops = some "min" ∧
      Xclim.lookup? "dryest" Xclim.Anuclim.xr_argops = some .argmin ∧
      Xclim.lookup? "driest" Xclim.Anuclim.xr_argops = some .argmin) ∧
    (Xclim.Anuclim.tg_mean_wetdry_quarter (pure tasQ) (pure prQ) foa "dryest" freq =
        Xclim.Anuclim.tg_mean_wetdry_quarter (pure tasQ) (pure prQ) foa "driest" freq ∧
      Xclim.Anuclim.prcptot_wetdry_quarter (pure prQ) sel "dryest" freq =
        Xclim.Anuclim.prcptot_wetdry_quarter (pure prQ) sel "driest" freq ∧
      Xclim.Anuclim.prcptot_wetdry_period (pure pram) res "dryest" freq =
        Xclim.Anuclim.prcptot_wetdry_period (pure pram) res "driest" freq) := by
  refine ⟨?_, ?_, ?_, ?_, ⟨rfl, rfl, rfl, rfl⟩, ⟨rfl, rfl, rfl⟩⟩
  · intro h
    constructor
    · simp only [Xclim.Anuclim.tg_mean_warmcold_quarter, pure_bind, if_neg h]
      exact ⟨_, rfl⟩
    · simp only [Xclim.Anuclim.prcptot_warmcold_quarter, pure_bind, if_neg h]
      exact ⟨_, rfl⟩
  · intro h
    refine ⟨?_, ?_, ?_⟩
    · simp only [Xclim.Anuclim.tg_mean_wetdry_quarter, pure_bind, if_neg h]
      exact ⟨_, rfl⟩
    · simp only [Xclim.Anuclim.prcptot_wetdry_quarter, pure_bind, if_neg h]
      exact ⟨_, rfl⟩
    · simp only [Xclim.Anuclim.prcptot_wetdry_period, pure_bind, if_neg h]
      exact ⟨_, rfl⟩
  · intro h
    simp only [List.mem_cons, List.not_mem_nil, or_false] at h
    rcases h with h | h
    · subst h
      exact ⟨⟨_, rfl⟩, ⟨_, rfl⟩⟩
    · subst h
      exact ⟨⟨_, rfl⟩, ⟨_, rfl⟩⟩
  · intro h
    simp only [List.mem_cons, List.not_mem_nil, or_false] at h
    rcases h with h | h | h
    · subst h
      exact ⟨⟨_, rfl⟩, ⟨_, rfl⟩, ⟨_, rfl⟩⟩
    · subst h
      exact ⟨⟨_, rfl⟩, ⟨_, rfl⟩, ⟨_, rfl⟩⟩
    · subst h
      exact ⟨⟨_, rfl⟩, ⟨_, rfl⟩, ⟨_, rfl⟩⟩

/-- C9 witness: at the concrete disallowed op "banana" the warm/cold quarter
indice raises `NotImplementedError`, and at the allowed misspelling "dryest"
the wet/dry quarter indice succeeds. -/
theorem anuclim_op_validation_witness :
    ("banana" ∉ (["warmest", "coldest"] : List String)) ∧
      ("dryest" ∈ (["wettest", "driest", "dryest"] : List String)) ∧
      Xclim.Anuclim.raisesNotImplemented
        (Xclim.Anuclim.tg_mean_warmcold_quarter (pure ()) (fun _ _ _ => ()) "banana" "YS") ∧
      Xclim.Anuclim.succeeds
        (Xclim.Anuclim.prcptot_wetdry_quarter (pure ()) (fun _ _ _ => ()) "dryest" "YS") :=
  ⟨by decide, by decide,
    ((anuclim_op_validation () () () (fun _ _ _ => ()) (fun _ _ _ => ())
        (fun _ _ _ _ => ()) "banana" "YS").1 (by decide)).1,
    ((anuclim_op_validation () () () (fun _ _ _ => ()) (fun _ _ _ => ())
        (fun _ _ _ _ => ()) "dryest" "YS").2.2.2.1 (by decide)).2.1⟩

namespace Xclim.Call

/-! ## The `Indicator.__call__` pipeline (`xclim/core/indicator.py`)

Embedding of the call skeleton for the base `Indicator`, with the as-dataset
option off. After argument parsing, `_preprocess_and_checks` runs
`datacheck` then `cfcheck` on all the variable (`DataArray`) inputs via
`_bind_call(self.datacheck, **das)`; the compute function is invoked only
afterwards; the number of outputs is compared against `n_outs`
(`len(self.cf_attrs)`); metadata formatting, unit conversion and
`_postprocess` are length-preserving per-output transformations, abstracted
into the opaque `post`; finally a single `DataArray` is returned when
`n_outs == 1` and a tuple otherwise. Exceptions propagate as `Except.error`.
A trace of events records which stages ran, in order. -/

/-- Pipeline stages whose execution is observable. -/
inductive Event where
  | datacheck
  | cfcheck
  | compute
  deriving DecidableEq, Repr

/-- Return shape of `__call__`: `outs[0]` or `tuple(outs)`. -/
inductive CallResult (Out : Type) where
  | single (o : Out)
  | tuple (os : List Out)
  deriving DecidableEq

/-- An indicator instance, with its checks and compute function over the
parsed variable inputs `das` (parameters are folded into the closures).
`compute` returns the output list (a lone `DataArray` already wrapped, as in
the source). -/
structure Env (Arr Out : Type) where
  cf_attrs : List (List (String × String))
  datacheck : List Arr → Except PyErr Unit
  cfcheck : List Arr → Except PyErr Unit
  compute : List Arr → Except PyErr (List Out)
  post : Out → Out

variable {Arr Out : Type}

/-- Property `Indicator.n_outs`: the length of `cf_attrs`. -/
def n_outs (env : Env Arr Out) : Nat := env.cf_attrs.length

/-- The call skeleton, returning the outcome and the trace of stages run. -/
def indicatorCall (env : Env Arr Out) (das : List Arr) :
    Except PyErr (CallResult Out) × List Event :=
  match env.datacheck das with
  | .error e => (.error e, [.datacheck])
  | .ok _ =>
    match env.cfcheck das with
    | .error e => (.error e, [.datacheck, .cfcheck])
    | .ok _ =>
      match env.compute das with
      | .error e => (.error e, [.datacheck, .cfcheck, .compute])
      | .ok outs =>
        if outs.length = n_outs env then
          if n_outs env = 1 then
            match outs.map env.post with
            | o :: _ => (.ok (.single o), [.datacheck, .cfcheck, .compute])
            | [] => (.error (.indexError "list index out of range"),
                [.datacheck, .cfcheck, .compute])
          else
            (.ok (.tuple (outs.map env.post)), [.datacheck, .cfcheck, .compute])
        else
          (.error (.valueError "Indicator was wrongly defined: wrong number of outputs"),
            [.datacheck, .cfcheck, .compute])

end Xclim.Call

/-- C1: on every call, `datacheck` then `cfcheck` run on the variable inputs
before the compute function; when a check raises, the exception propagates
with no output and the compute stage never runs; the compute stage runs
exactly when both checks pass, and every trace is one of the three
check-first stage sequences. -/
theorem call_checks_before_compute {Arr Out : Type}
    (env : Xclim.Call.Env Arr Out) (das : List Arr) :
    (∀ e, env.datacheck das = Except.error e →
      Xclim.Call.indicatorCall env das = (Except.error e, [Xclim.Call.Event.datacheck])) ∧
    (∀ e, env.datacheck das = Except.ok () → env.cfcheck das = Except.error e →
      Xclim.Call.indicatorCall env das =
        (Except.error e, [Xclim.Call.Event.datacheck, Xclim.Call.Event.cfcheck])) ∧
    (Xclim.Call.Event.compute ∈ (Xclim.Call.indicatorCall env das).2 ↔
      env.datacheck das = Except.ok () ∧ env.cfcheck das = Except.ok ()) ∧
    ((Xclim.Call.indicatorCall env das).2 = [Xclim.Call.Event.datacheck] ∨
      (Xclim.Call.indicatorCall env das).2 =
        [Xclim.Call.Event.datacheck, Xclim.Call.Event.cfcheck] ∨
      (Xclim.Call.indicatorCall env das).2 =
        [Xclim.Call.Event.datacheck, Xclim.Call.Event.cfcheck, Xclim.Call.Event.compute]) := by
  refine ⟨?_, ?_, ?_, ?_⟩
  · intro e he
    simp [Xclim.Call.indicatorCall, he]
  · intro e hok he
    simp [Xclim.Call.indicatorCall, hok, he]
  · cases hdc : env.datacheck das with
    | error e => simp [Xclim.Call.indicatorCall, hdc]
    | ok u =>
      cases u
      cases hcf : env.cfcheck das with
      | error e => simp [Xclim.Call.indicatorCall, hdc, hcf]
      | ok u =>
        cases u
        cases hcp : env.compute das with
        | error e => simp [Xclim.Call.indicatorCall, hdc, hcf, hcp]
        | ok outs =>
          simp only [Xclim.Call.indicatorCall, hdc, hcf, hcp]
          split
          · split
            · split <;> simp
            · simp
          · simp
  · cases hdc : env.datacheck das with
    | error e => simp [Xclim.Call.indicatorCall, hdc]
    | ok u =>
      cases u
      cases hcf : env.cfcheck das with
      | error e => simp [Xclim.Call.indicatorCall, hdc, hcf]
      | ok u =>
        cases u
        cases hcp : env.compute das with
        | error e => simp [Xclim.Call.indicatorCall, hdc, hcf, hcp]
        | ok outs =>
          simp only [Xclim.Call.indicatorCall, hdc, hcf, hcp]
          split
          · split
            · split <;> simp
            · simp
          · simp

namespace Xclim.Call

/-- Environment for the C1 witness: a single-output indicator whose
`datacheck` rejects the input frequency. -/
def envC1 : Env Unit Nat where
  cf_attrs := [[("var_name", "tg_mean")]]
  datacheck := fun _ => Except.error (PyErr.valueError "frequency not daily")
  cfcheck := fun _ => Except.ok ()
  compute := fun _ => Except.ok [3]
  post := id

/-- Environment for the C8 witness: a two-output indicator with passing
checks. -/
def envC8 : Env Unit Nat where
  cf_attrs := [[("var_name", "tn")], [("var_name", "tx")]]
  datacheck := fun _ => Except.ok ()
  cfcheck := fun _ => Except.ok ()
  compute := fun _ => Except.ok [3, 4]
  post := id

end Xclim.Call

/-- C1 witness: a failing `datacheck` propagates its exception, produces no
output, and the compute stage is absent from the trace. -/
theorem call_checks_before_compute_witness :
    Xclim.Call.envC1.datacheck [()] =
        Except.error (Xclim.PyErr.valueError "frequency not daily") ∧
      Xclim.Call.indicatorCall Xclim.Call.envC1 [()] =
        (Except.error (Xclim.PyErr.valueError "frequency not daily"),
          [Xclim.Call.Event.datacheck]) :=
  ⟨rfl,
    (call_checks_before_compute Xclim.Call.envC1 [()]).1
      (Xclim.PyErr.valueError "frequency not daily") rfl⟩

/-- C8: with checks passing and the compute function returning `outs`, the
call raises `ValueError` when `len(outs)` differs from `n_outs`
(`= len(cf_attrs)`); otherwise (as-dataset off) it returns a single output
when `n_outs = 1` and a tuple of exactly `n_outs` outputs when
`n_outs > 1`. -/
theorem call_output_arity {Arr Out : Type}
    (env : Xclim.Call.Env Arr Out) (das : List Arr) (outs : List Out)
    (hdc : env.datacheck das = Except.ok ()) (hcf : env.cfcheck das = Except.ok ())
    (hcp : env.compute das = Except.ok outs) :
    (¬ (outs.length = Xclim.Call.n_outs env) →
      (Xclim.Call.indicatorCall env das).1 =
        Except.error (Xclim.PyErr.valueError
          "Indicator was wrongly defined: wrong number of outputs")) ∧
    (outs.length = Xclim.Call.n_outs env → Xclim.Call.n_outs env = 1 →
      ∃ o rest, outs = o :: rest ∧
        (Xclim.Call.indicatorCall env das).1 =
          Except.ok (Xclim.Call.CallResult.single (env.post o))) ∧
    (outs.length = Xclim.Call.n_outs env → 1 < Xclim.Call.n_outs env →
      (Xclim.Call.indicatorCall env das).1 =
          Except.ok (Xclim.Call.CallResult.tuple (outs.map env.post)) ∧
        (outs.map env.post).length = Xclim.Call.n_outs env) := by
  refine ⟨?_, ?_, ?_⟩
  · intro hne
    simp only [Xclim.Call.indicatorCall, hdc, hcf, hcp]
    rw [if_neg hne]
  · intro hlen hone
    rw [hone] at hlen
    match outs, hlen with
    | [o], _ =>
      refine ⟨o, [], rfl, ?_⟩
      simp only [Xclim.Call.indicatorCall, hdc, hcf, hcp]
      rw [if_pos (by rw [hone]; rfl), if_pos hone]
      simp
  · intro hlen hgt
    have hne : ¬ (Xclim.Call.n_outs env = 1) := by omega
    simp only [Xclim.Call.indicatorCall, hdc, hcf, hcp]
    rw [if_pos hlen, if_neg hne]
    exact ⟨rfl, by rw [List.length_map]; exact hlen⟩

/-- C8 witness: a two-output indicator whose compute returns two arrays gives
back a tuple of exactly two outputs. -/
theorem call_output_arity_witness :
    Xclim.Call.envC8.datacheck [()] = Except.ok () ∧
      Xclim.Call.envC8.compute [()] = Except.ok [3, 4] ∧
      ([3, 4] : List Nat).length = Xclim.Call.n_outs Xclim.Call.envC8 ∧
      1 < Xclim.Call.n_outs Xclim.Call.envC8 ∧
      (Xclim.Call.indicatorCall Xclim.Call.envC8 [()]).1 =
        Except.ok (Xclim.Call.CallResult.tuple (([3, 4] : List Nat).map Xclim.Call.envC8.post)) ∧
      (([3, 4] : List Nat).map Xclim.Call.envC8.post).length = Xclim.Call.n_outs Xclim.Call.envC8 :=
  ⟨rfl, rfl, rfl, by decide,
    ((call_output_arity Xclim.Call.envC8 [()] [3, 4] rfl rfl rfl).2.2 rfl (by decide)).1,
    ((call_output_arity Xclim.Call.envC8 [()] [3, 4] rfl rfl rfl).2.2 rfl (by decide)).2⟩

namespace Xclim.Missing

/-! ## Missing-value masking (`CheckMissingIndicator._postprocess`)

Source, `xclim/core/indicator.py`:

    freq = self._get_missing_freq(params)
    method = self.missing if self.missing != "from_context" else OPTIONS[CHECK_MISSING]
    if method != "skip" and freq is not False:
        misser = MISSING_METHODS[method](**options)
        miss = (misser(da, freq, src_freq, ...) for da in das.values() if "time" in da.coords)
        mask = reduce(np.logical_or, miss)
        if "time" in mask.dims and mask.time.size < outs[0].time.size:
            mask = mask.reindex(time=outs[0].time, fill_value=True)
        outs = [out.where(~mask) for out in outs]

Time coordinates are modelled as `Nat`; an output array carries its time
axis and per-period optional values (`none` is NaN/missing); the flags
computed by the missing-value method (`xclim.core.missing`, outside `src/`)
arrive as already-evaluated per-input masks, one per time-bearing input. -/

/-- Output `DataArray` over a resampled time axis; `none` models NaN. -/
structure DArr (Val : Type) where
  time : List Nat
  vals : Nat → Option Val

/-- Boolean mask over a resampled time axis, as returned by a misser. -/
structure Mask where
  time : List Nat
  flag : Nat → Bool

/-- Resolution of the missing method: the indicator's own, or the global
`check_missing` option when it is "from_context". -/
def resolvedMethod (missing check_missing : String) : String :=
  if missing = "from_context" then check_missing else missing

/-- `functools.reduce(np.logical_or, miss)`: pointwise OR of the masks
(which share a time axis), `TypeError`-like error on an empty iterable. -/
def reduceOr : List Mask → Except PyErr Mask
  | [] => Except.error (.valueError "reduce() of empty iterable with no initial value")
  | m :: ms =>
    Except.ok
      { time := m.time,
        flag := fun t => ms.foldl (fun b mm => b || mm.flag t) (m.flag t) }

/-- `mask.reindex(time=newTime, fill_value=True)`. -/
def reindexFillTrue (m : Mask) (newTime : List Nat) : Mask :=
  { time := newTime, flag := fun t => if t ∈ m.time then m.flag t else true }

/-- `out.where(~mask)`: keep a value only at periods that are on the mask's
axis with flag `false`; everywhere else the value becomes missing (xarray
alignment treats periods absent from the mask axis as not-True). -/
def whereNot {Val : Type} (o : DArr Val) (m : Mask) : DArr Val :=
  { time := o.time,
    vals := fun t => if t ∈ m.time ∧ m.flag t = false then o.vals t else none }

/-- Embedding of `CheckMissingIndicator._postprocess`. `freqIsFalse` models
`freq is False` (the `_get_missing_freq` result), `miss` the misser masks of
the time-bearing inputs. -/
def postprocessMissing {Val : Type} (missing check_missing : String)
    (freqIsFalse : Bool) (miss : List Mask) (outs : List (DArr Val)) :
    Except PyErr (List (DArr Val)) :=
  if resolvedMethod missing check_missing = "skip" ∨ freqIsFalse = true then
    Except.ok outs
  else
    match reduceOr miss with
    | .error e => Except.error e
    | .ok mask0 =>
      match outs.head? with
      | none => Except.error (.indexError "list index out of range")
      | some o0 =>
        let mask := if mask0.time.length < o0.time.length
          then reindexFillTrue mask0 o0.time else mask0
        Except.ok (outs.map (fun o => whereNot o mask))

theorem foldl_or_eq_any (ms : List Mask) (t : Nat) (b : Bool) :
    ms.foldl (fun b mm => b || mm.flag t) b = (b || ms.any (fun mm => mm.flag t)) := by
  induction ms generalizing b with
  | nil => simp
  | cons m rest ih =>
    simp only [List.foldl_cons, List.any_cons, ih, Bool.or_assoc]

theorem zip_map_self {A B : Type} (f : A → B) (l : List A) :
    l.zip (l.map f) = l.map (fun a => (a, f a)) := by
  induction l with
  | nil => rfl
  | cons a t ih => simp [ih]

end Xclim.Missing

/-- C2: when the resolved missing method (the indicator's own, or the global
option under "from_context") is not "skip" and the missing-check frequency is
not `False`, each output is masked to missing at every resampling period
that the missing-value method flags in at least one time-bearing input, and
periods absent from the computed mask's time axis (after a reindex with fill
value `True`) are also treated as missing; when the method is "skip" or the
frequency is `False` the outputs pass through unchanged. -/
theorem missing_masks_outputs {Val : Type} (missing check_missing : String)
    (freqIsFalse : Bool) (m0 : Xclim.Missing.Mask) (ms : List Xclim.Missing.Mask)
    (o0 : Xclim.Missing.DArr Val) (rest : List (Xclim.Missing.DArr Val))
    (hcase : m0.time = o0.time ∨ m0.time.length < o0.time.length) :
    (Xclim.Missing.resolvedMethod missing check_missing = "skip" ∨ freqIsFalse = true →
      Xclim.Missing.postprocessMissing missing check_missing freqIsFalse (m0 :: ms)
        (o0 :: rest) = Except.ok (o0 :: rest)) ∧
    (¬ (Xclim.Missing.resolvedMethod missing check_missing = "skip") → freqIsFalse = false →
      ∃ outs', Xclim.Missing.postprocessMissing missing check_missing freqIsFalse (m0 :: ms)
          (o0 :: rest) = Except.ok outs' ∧
        outs'.length = (o0 :: rest).length ∧
        ∀ p ∈ (o0 :: rest).zip outs', p.2.time = p.1.time ∧
          ∀ t ∈ o0.time, p.2.vals t =
            if t ∈ m0.time then
              (if (m0 :: ms).any (fun mm => mm.flag t) then none else p.1.vals t)
            else none) := by
  constructor
  · intro h
    unfold Xclim.Missing.postprocessMissing
    rw [if_pos h]
  · intro hskip hfreq
    have hguard : ¬ (Xclim.Missing.resolvedMethod missing check_missing = "skip" ∨
        freqIsFalse = true) := by
      intro hor
      rcases hor with hor | hor
      · exact hskip hor
      · rw [hfreq] at hor
        cases hor
    refine ⟨(o0 :: rest).map (fun o => Xclim.Missing.whereNot o
        (if m0.time.length < o0.time.length
          then Xclim.Missing.reindexFillTrue
            { time := m0.time,
              flag := fun t => ms.foldl (fun b mm => b || mm.flag t) (m0.flag t) } o0.time
          else
            { time := m0.time,
              flag := fun t => ms.foldl (fun b mm => b || mm.flag t) (m0.flag t) })),
      ?_, ?_, ?_⟩
    · unfold Xclim.Missing.postprocessMissing
      rw [if_neg hguard]
      rfl
    · simp
    · intro p hp
      rw [Xclim.Missing.zip_map_self] at hp
      rcases List.mem_map.mp hp with ⟨a, ha, hpa⟩
      subst hpa
      refine ⟨rfl, ?_⟩
      intro t ht
      by_cases hlt : m0.time.length < o0.time.length
      · rw [if_pos hlt]
        show (if t ∈ o0.time ∧ (if t ∈ m0.time
            then ms.foldl (fun b mm => b || mm.flag t) (m0.flag t) else true) = false
          then a.vals t else none) = _
        rw [Xclim.Missing.foldl_or_eq_any]
        by_cases htm : t ∈ m0.time
        · simp only [ht, htm, if_pos, true_and, List.any_cons, if_true]
          by_cases hb : (m0.flag t || ms.any fun mm => mm.flag t) = true
          · simp [hb]
          · simp only [Bool.not_eq_true] at hb
            simp [hb]
        · simp [ht, htm]
      · rw [if_neg hlt]
        have heq : m0.time = o0.time := by
          rcases hcase with heq | hlt'
          · exact heq
          · exact absurd hlt' hlt
        have htm : t ∈ m0.time := heq ▸ ht
        show (if t ∈ m0.time ∧ ms.foldl (fun b mm => b || mm.flag t) (m0.flag t) = false
          then a.vals t else none) = _
        rw [Xclim.Missing.foldl_or_eq_any]
        simp only [htm, true_and, List.any_cons, if_true]
        by_cases hb : (m0.flag t || ms.any fun mm => mm.flag t) = true
        · simp [hb]
        · simp only [Bool.not_eq_true] at hb
          simp [hb]

namespace Xclim.Missing

/-- Concrete misser mask for the C2 witness: periods 0 and 1, with period 1
flagged missing. -/
def mCex : Mask := { time := [0, 1], flag := fun t => t == 1 }

/-- Concrete output array for the C2 witness: periods 0, 1 and 2 (period 2
is absent from the mask axis). -/
def oCex : DArr Nat := { time := [0, 1, 2], vals := fun t => some t }

end Xclim.Missing

/-- C2 witness: the masking theorem applied under the "any" method to one
mask over periods 0-1 (period 1 flagged) and one output over periods 0-2,
so that period 2 must be reindex-filled as missing. -/
theorem missing_masks_outputs_witness :
    (¬ (Xclim.Missing.resolvedMethod "any" "any" = "skip")) ∧
      (Xclim.Missing.mCex.time = Xclim.Missing.oCex.time ∨
        Xclim.Missing.mCex.time.length < Xclim.Missing.oCex.time.length) ∧
      (∃ outs', Xclim.Missing.postprocessMissing "any" "any" false [Xclim.Missing.mCex]
          [Xclim.Missing.oCex] = Except.ok outs' ∧
        outs'.length = [Xclim.Missing.oCex].length ∧
        ∀ p ∈ [Xclim.Missing.oCex].zip outs', p.2.time = p.1.time ∧
          ∀ t ∈ Xclim.Missing.oCex.time, p.2.vals t =
            if t ∈ Xclim.Missing.mCex.time then
              (if [Xclim.Missing.mCex].any (fun mm => mm.flag t) then none else p.1.vals t)
            else none) :=
  ⟨by decide, by decide,
    (missing_masks_outputs "any" "any" false Xclim.Missing.mCex [] Xclim.Missing.oCex []
      (by decide)).2 (by decide) rfl⟩

namespace Xclim.Seasonality

/-! ## `temperature_seasonality` (`xclim/indices/_anuclim.py`)

Source:

    tas = convert_units_to(tas, "K")
    seas = 100 * _anuclim_coeff_var(tas, freq=freq)
    seas.attrs["units"] = "%"

and `_anuclim_coeff_var` resamples `arr` at `freq` and returns
`std(dim="time") / mean(dim="time")`.

A `DataArray` is modelled as a units string plus a list of values indexed by
time step; the resampling frequency is modelled as the grouping function it
induces from time steps to period keys. Values live in an abstract field `F`
(numpy floating point is delegated numerics) and the numpy square root is an
opaque function parameter `sqrt`; `std` is the xarray default (population
standard deviation, `ddof=0`), i.e. `sqrt` of the mean squared deviation. -/

variable {F : Type} [Field F]

/-- Input time series with units. -/
structure DataArray (F : Type) where
  units : String
  data : List F

/-- Resampled (period-keyed) series with units. -/
structure RSeries (F : Type) where
  units : String
  data : List (Nat × F)

/-- Modelled from the spec: `xclim.core.units.convert_units_to` (not under
`src/`) for a temperature target of "K" — identity on Kelvin input, affine
conversion from Celsius and Fahrenheit, an error for other units. -/
def convert_units_to_K (da : DataArray F) : Except PyErr (DataArray F) :=
  if da.units = "K" then Except.ok da
  else if da.units = "degC" then
    Except.ok { units := "K", data := da.data.map (fun x => x + 27315 / 100) }
  else if da.units = "degF" then
    Except.ok { units := "K", data := da.data.map (fun x => (x - 32) / (9 / 5) + 27315 / 100) }
  else Except.error (.valueError "Impossible to convert the units to K")

/-- Period keys occurring in the series under the grouping `g`, first
occurrence first. -/
def periodKeys (g : Nat → Nat) (xs : List F) : List Nat :=
  (xs.enum.map (fun p => g p.1)).dedup

/-- Values of the time steps belonging to period `k`. -/
def groupVals (g : Nat → Nat) (xs : List F) (k : Nat) : List F :=
  (xs.enum.filter (fun p => g p.1 = k)).map Prod.snd

/-- Arithmetic mean (`mean(dim="time")`). -/
def mean (l : List F) : F := l.sum / (l.length : F)

/-- Population standard deviation (`std(dim="time")`, xarray default
`ddof=0`), for the ambient square root. -/
def std (sqrt : F → F) (l : List F) : F :=
  sqrt ((l.map (fun x => (x - mean l) ^ 2)).sum / (l.length : F))

/-- `arr.resample(time=freq).f(dim="time")`: one aggregated value per period
key. -/
def resampleWith (f : List F → F) (g : Nat → Nat) (xs : List F) : List (Nat × F) :=
  (periodKeys g xs).map (fun k => (k, f (groupVals g xs k)))

/-- Division of two period-aligned series (xarray broadcasting on the shared
time coordinate). -/
def alignDiv (a b : List (Nat × F)) : List (Nat × F) :=
  a.map (fun kv => (kv.1, kv.2 / (lookup? kv.1 b).getD 0))

/-- Embedding of `_anuclim_coeff_var`: per-period `std / mean`. -/
def _anuclim_coeff_var (sqrt : F → F) (g : Nat → Nat) (xs : List F) : List (Nat × F) :=
  alignDiv (resampleWith (std sqrt) g xs) (resampleWith mean g xs)

/-- Embedding of `temperature_seasonality`: convert to Kelvin, scale the
coefficient of variation by 100, set the units attribute to "%". -/
def temperature_seasonality (sqrt : F → F) (g : Nat → Nat) (tas : DataArray F) :
    Except PyErr (RSeries F) := do
  let tasK ← convert_units_to_K tas
  Except.ok
    { units := "%",
      data := (_anuclim_coeff_var sqrt g tasK.data).map (fun kv => (kv.1, 100 * kv.2)) }

omit [Field F] in
theorem nodup_periodKeys (g : Nat → Nat) (xs : List F) : (periodKeys g xs).Nodup :=
  List.nodup_dedup _

omit [Field F] in
/-- Keys of a list mapped into keyed pairs. -/
theorem keys_pair_map {V' : Type} (l : List Nat) (h : Nat → V') :
    Xclim.keys (l.map (fun k => (k, h k))) = l := by
  induction l with
  | nil => rfl
  | cons a t ih => simpa [Xclim.keys] using ih

omit [Field F] in
/-- Lookup in a series keyed over `periodKeys` finds the aggregated value. -/
theorem lookup?_resampleWith (f : List F → F) (g : Nat → Nat) (xs : List F)
    (k : Nat) (hk : k ∈ periodKeys g xs) :
    lookup? k (resampleWith f g xs) = some (f (groupVals g xs k)) := by
  have hados := lookup?_keyed_map (fun n : Nat => n) (fun n => f (groupVals g xs n))
    (periodKeys g xs) (by simpa using nodup_periodKeys g xs) k hk
  simpa [resampleWith] using hados

/-- The coefficient-of-variation series is the per-period `std / mean`. -/
theorem coeff_var_eq (sqrt : F → F) (g : Nat → Nat) (xs : List F) :
    _anuclim_coeff_var sqrt g xs =
      (periodKeys g xs).map
        (fun k => (k, std sqrt (groupVals g xs k) / mean (groupVals g xs k))) := by
  have ha : resampleWith (std sqrt) g xs =
      (periodKeys g xs).map (fun k => (k, std sqrt (groupVals g xs k))) := rfl
  unfold _anuclim_coeff_var alignDiv
  rw [ha, List.map_map]
  apply List.map_congr_left
  intro k hk
  simp only [Function.comp]
  rw [lookup?_resampleWith mean g xs k hk]
  rfl

/-- The final data of `temperature_seasonality`, per-period. -/
theorem seas_data_eq (sqrt : F → F) (g : Nat → Nat) (xs : List F) :
    (_anuclim_coeff_var sqrt g xs).map (fun kv => (kv.1, 100 * kv.2)) =
      (periodKeys g xs).map (fun k =>
        (k, 100 * (std sqrt (groupVals g xs k) / mean (groupVals g xs k)))) := by
  rw [coeff_var_eq, List.map_map]
  apply List.map_congr_left
  intro k hk
  rfl

end Xclim.Seasonality

/-- C7: `temperature_seasonality` first converts the input to Kelvin, and the
returned series has units "%" and holds, at each resampling period of the
given frequency, 100 times the (population) standard deviation of that
period's Kelvin values divided by their mean. -/
theorem temperature_seasonality_spec {F : Type} [Field F] (sqrt : F → F) (g : Nat → Nat)
    (tas tasK : Xclim.Seasonality.DataArray F)
    (hconv : Xclim.Seasonality.convert_units_to_K tas = Except.ok tasK) :
    ∃ r, Xclim.Seasonality.temperature_seasonality sqrt g tas = Except.ok r ∧
      r.units = "%" ∧
      Xclim.keys r.data = Xclim.Seasonality.periodKeys g tasK.data ∧
      ∀ k ∈ Xclim.Seasonality.periodKeys g tasK.data,
        Xclim.lookup? k r.data = some
          (100 * (Xclim.Seasonality.std sqrt (Xclim.Seasonality.groupVals g tasK.data k) /
            Xclim.Seasonality.mean (Xclim.Seasonality.groupVals g tasK.data k))) := by
  have hdef : Xclim.Seasonality.temperature_seasonality sqrt g tas =
      Except.bind (Xclim.Seasonality.convert_units_to_K tas)
        (fun tk => Except.ok
          ({ units := "%",
             data := (Xclim.Seasonality._anuclim_coeff_var sqrt g tk.data).map
               (fun kv => (kv.1, 100 * kv.2)) } : Xclim.Seasonality.RSeries F)) := rfl
  rw [hdef, hconv]
  refine ⟨_, rfl, rfl, ?_, ?_⟩
  · show Xclim.keys ((Xclim.Seasonality._anuclim_coeff_var sqrt g tasK.data).map
      (fun kv => (kv.1, 100 * kv.2))) = _
    rw [Xclim.Seasonality.seas_data_eq]
    exact Xclim.Seasonality.keys_pair_map _ _
  · intro k hk
    show Xclim.lookup? k ((Xclim.Seasonality._anuclim_coeff_var sqrt g tasK.data).map
      (fun kv => (kv.1, 100 * kv.2))) = _
    rw [Xclim.Seasonality.seas_data_eq]
    have hados := Xclim.lookup?_keyed_map (fun n : Nat => n)
      (fun n => 100 * (Xclim.Seasonality.std sqrt (Xclim.Seasonality.groupVals g tasK.data n) /
        Xclim.Seasonality.mean (Xclim.Seasonality.groupVals g tasK.data n)))
      (Xclim.Seasonality.periodKeys g tasK.data)
      (by simpa using Xclim.Seasonality.nodup_periodKeys g tasK.data) k hk
    simpa using hados

/-- C7 witness: the theorem applied over the rationals (with an opaque
square-root stand-in) to a two-step Kelvin series (conversion is the
identity there) grouped into a single annual period. -/
theorem temperature_seasonality_spec_witness :
    Xclim.Seasonality.convert_units_to_K
        ({ units := "K", data := [300, 302] } : Xclim.Seasonality.DataArray ℚ) =
      Except.ok ({ units := "K", data := [300, 302] } : Xclim.Seasonality.DataArray ℚ) ∧
    (∃ r, Xclim.Seasonality.temperature_seasonality id (fun _ => 0)
        ({ units := "K", data := [300, 302] } : Xclim.Seasonality.DataArray ℚ) = Except.ok r ∧
      r.units = "%" ∧
      Xclim.keys r.data = Xclim.Seasonality.periodKeys (fun _ => 0)
        (({ units := "K", data := [300, 302] } : Xclim.Seasonality.DataArray ℚ)).data ∧
      ∀ k ∈ Xclim.Seasonality.periodKeys (fun _ => 0)
          (({ units := "K", data := [300, 302] } : Xclim.Seasonality.DataArray ℚ)).data,
        Xclim.lookup? k r.data = some
          (100 * (Xclim.Seasonality.std id (Xclim.Seasonality.groupVals (fun _ => 0)
              (({ units := "K", data := [300, 302] } : Xclim.Seasonality.DataArray ℚ)).data k) /
            Xclim.Seasonality.mean (Xclim.Seasonality.groupVals (fun _ => 0)
              (({ units := "K", data := [300, 302] } : Xclim.Seasonality.DataArray ℚ)).data k)))) :=
  ⟨rfl, temperature_seasonality_spec id (fun _ => 0)
    ({ units := "K", data := [300, 302] } : Xclim.Seasonality.DataArray ℚ)
    ({ units := "K", data := [300, 302] } : Xclim.Seasonality.DataArray ℚ) rfl⟩

namespace Xclim.Module

/-! ## Indicator module building (`build_indicator_module`,
`build_indicator_module_from_yaml`)

Source, `xclim/core/indicator.py`:

    if hasattr(indicators, name):
        out = getattr(indicators, name)
        if reload:
            for n, ind in list(out.iter_indicators()):
                if n not in objs:
                    del registry[ind._registry_id]
                    del _indicators_registry[ind.__class__]
                    del out.__dict__[n]
    else:
        out = ModuleType(name, doc)
        indicators.__dict__[name] = out
    out.__dict__.update(objs)
    add_iter_indicators(out)

An indicator instance is its registry id and class identity; a module entry
is an indicator or something else (e.g. the `iter_indicators` closure). The
`reload` loop runs over a snapshot of the module's indicator entries whose
keys are distinct (Python module `__dict__`s have unique keys), so its net
effect is modelled by filters. `build_indicator_module_from_yaml` passes
`objs = mapping`, the dict with one constructed instance per YAML entry
keyed by the entry's identifier, and returns this function's result. -/

/-- Indicator instance identity: its `_registry_id` and its class. -/
structure Ind where
  registry_id : String
  classId : Nat
  deriving DecidableEq

/-- Module `__dict__` member. -/
inductive Obj where
  | ind (i : Ind)
  | other (tag : String)
  deriving DecidableEq

/-- An indicators submodule: its `__dict__`. -/
structure ModuleT where
  entries : List (String × Obj)
  deriving DecidableEq

/-- The global registries touched by the reload loop: `registry` (id to
class) and the key set of `_indicators_registry`. -/
structure Registries where
  registry : List (String × Nat)
  instancesKeys : List Nat
  deriving DecidableEq

/-- Python `del d[k]` for a dict. -/
def delKey {V : Type} [DecidableEq String] (d : List (String × V)) (k : String) :
    List (String × V) :=
  d.filter (fun kv => ¬ (kv.1 = k))

/-- An entry the reload loop deletes: an indicator whose key is not among the
new objects. -/
def isStale (objs : List (String × Ind)) (kv : String × Obj) : Bool :=
  match kv.2 with
  | .ind _ => (lookup? kv.1 objs).isNone
  | .other _ => false

/-- The snapshot of indicator entries the reload loop deletes. -/
def staleInds (m : ModuleT) (objs : List (String × Ind)) : List (String × Ind) :=
  m.entries.filterMap (fun kv =>
    match kv.2 with
    | .ind i => if (lookup? kv.1 objs).isNone then some (kv.1, i) else none
    | .other _ => none)

/-- Net effect of the reload loop: stale indicators leave the module and the
registries. -/
def removeStale (m : ModuleT) (objs : List (String × Ind)) (regs : Registries) :
    ModuleT × Registries :=
  ({ entries := m.entries.filter (fun kv => ¬ (isStale objs kv = true)) },
    { registry := regs.registry.filter
        (fun kv => ¬ ((staleInds m objs).any (fun p => p.2.registry_id = kv.1) = true)),
      instancesKeys := regs.instancesKeys.filter
        (fun c => ¬ ((staleInds m objs).any (fun p => p.2.classId = c) = true)) })

/-- Embedding of `add_iter_indicators`: add the iterator closure unless the
module already has one. -/
def add_iter_indicators (m : ModuleT) : ModuleT :=
  if (lookup? "iter_indicators" m.entries).isSome then m
  else { entries := m.entries ++ [("iter_indicators", Obj.other "iter_indicators")] }

/-- Embedding of `build_indicator_module`: returns the updated
`xclim.indicators` submodule table, the updated registries and the built
module. -/
def build_indicator_module (indicators : List (String × ModuleT)) (regs : Registries)
    (name : String) (objs : List (String × Ind)) (reload : Bool) :
    List (String × ModuleT) × Registries × ModuleT :=
  match lookup? name indicators with
  | some m0 =>
    let mr := if reload then removeStale m0 objs regs else (m0, regs)
    let m2 := add_iter_indicators
      { entries := update mr.1.entries (objs.map (fun kv => (kv.1, Obj.ind kv.2))) }
    (setItem indicators name m2, mr.2, m2)
  | none =>
    let m2 := add_iter_indicators
      { entries := update [] (objs.map (fun kv => (kv.1, Obj.ind kv.2))) }
    (setItem indicators name m2, regs, m2)

/-- A lookup that succeeds is preserved by `add_iter_indicators`. -/
theorem lookup?_addIter_of_some (m : ModuleT) (k : String) (o : Obj)
    (h : lookup? k m.entries = some o) :
    lookup? k (add_iter_indicators m).entries = some o := by
  unfold add_iter_indicators
  split
  · exact h
  · exact lookup?_append_left_of_some m.entries _ k o h

/-- `add_iter_indicators` changes no key other than "iter_indicators". -/
theorem lookup?_addIter_ne (m : ModuleT) (k : String) (h : ¬ (k = "iter_indicators")) :
    lookup? k (add_iter_indicators m).entries = lookup? k m.entries := by
  unfold add_iter_indicators
  split
  · rfl
  · exact lookup?_append_single_ne m.entries "iter_indicators" k _ (fun he => h (Eq.symm he))

/-- A stale module binding is in the reload loop's snapshot. -/
theorem mem_staleInds (m : ModuleT) (objs : List (String × Ind)) (k : String) (i : Ind)
    (hmem : (k, Obj.ind i) ∈ m.entries) (hnone : lookup? k objs = none) :
    (k, i) ∈ staleInds m objs := by
  unfold staleInds
  apply List.mem_filterMap.mpr
  exact ⟨(k, Obj.ind i), hmem, by simp [hnone]⟩

/-- Keys are unchanged by a value-only map. -/
theorem keys_map_snd {V W : Type} (d : List (String × V)) (f : V → W) :
    keys (d.map (fun kv => (kv.1, f kv.2))) = keys d := by
  induction d with
  | nil => rfl
  | cons p rest ih => simp only [List.map_cons, keys_cons, ih]

/-- A successful lookup means the key is present. -/
theorem mem_keys_of_lookup?_isSome {V : Type} (d : List (String × V)) (k : String)
    (h : (lookup? k d).isSome = true) : k ∈ keys d := by
  by_contra hc
  rw [lookup?_eq_none_of_not_mem d k hc] at h
  cases h

/-- Keys after `add_iter_indicators`. -/
theorem mem_keys_addIter (m : ModuleT) (n : String) :
    n ∈ keys (add_iter_indicators m).entries ↔
      n ∈ keys m.entries ∨ n = "iter_indicators" := by
  unfold add_iter_indicators
  split
  · rename_i h
    constructor
    · exact Or.inl
    · intro hor
      rcases hor with h1 | h1
      · exact h1
      · subst h1
        exact mem_keys_of_lookup?_isSome m.entries "iter_indicators" h
  · show n ∈ keys (m.entries ++ [("iter_indicators", Obj.other "iter_indicators")]) ↔ _
    unfold keys
    rw [List.map_append, List.mem_append]
    simp

end Xclim.Module

/-- C5: `build_indicator_module` (as driven by
`build_indicator_module_from_yaml` with one constructed instance per YAML
entry, keyed by the entry's identifier) installs a module under `name` in
`xclim.indicators` whose entries hold those instances; when the module
already exists and `reload` is `False`, previously present entries are kept
and the new instances are added, overwriting only same-named ones; with
`reload = True`, existing indicators whose key is not among the new objects
are first removed from the module and from both registries (other members
are kept). -/
theorem build_module_spec (indicators : List (String × Xclim.Module.ModuleT))
    (regs : Xclim.Module.Registries) (name : String)
    (objs : List (String × Xclim.Module.Ind)) (reload : Bool)
    (hobjs : (Xclim.keys objs).Nodup) :
    (Xclim.lookup? name indicators = none →
      Xclim.lookup? name
          (Xclim.Module.build_indicator_module indicators regs name objs reload).1 =
        some (Xclim.Module.build_indicator_module indicators regs name objs reload).2.2 ∧
      (Xclim.Module.build_indicator_module indicators regs name objs reload).2.1 = regs ∧
      (∀ kv ∈ objs, Xclim.lookup? kv.1
          (Xclim.Module.build_indicator_module indicators regs name objs reload).2.2.entries =
        some (Xclim.Module.Obj.ind kv.2)) ∧
      (∀ n, n ∈ Xclim.keys
          (Xclim.Module.build_indicator_module indicators regs name objs reload).2.2.entries ↔
        n ∈ Xclim.keys objs ∨ n = "iter_indicators")) ∧
    (∀ m0, Xclim.lookup? name indicators = some m0 → reload = false →
      Xclim.lookup? name
          (Xclim.Module.build_indicator_module indicators regs name objs reload).1 =
        some (Xclim.Module.build_indicator_module indicators regs name objs reload).2.2 ∧
      (Xclim.Module.build_indicator_module indicators regs name objs reload).2.1 = regs ∧
      (∀ kv ∈ objs, Xclim.lookup? kv.1
          (Xclim.Module.build_indicator_module indicators regs name objs reload).2.2.entries =
        some (Xclim.Module.Obj.ind kv.2)) ∧
      (∀ k, Xclim.lookup? k objs = none → ¬ (k = "iter_indicators") →
        Xclim.lookup? k
            (Xclim.Module.build_indicator_module indicators regs name objs reload).2.2.entries =
          Xclim.lookup? k m0.entries)) ∧
    (∀ m0, Xclim.lookup? name indicators = some m0 → reload = true →
      (Xclim.keys m0.entries).Nodup →
      Xclim.lookup? name
          (Xclim.Module.build_indicator_module indicators regs name objs reload).1 =
        some (Xclim.Module.build_indicator_module indicators regs name objs reload).2.2 ∧
      (∀ kv ∈ objs, Xclim.lookup? kv.1
          (Xclim.Module.build_indicator_module indicators regs name objs reload).2.2.entries =
        some (Xclim.Module.Obj.ind kv.2)) ∧
      (∀ k i, (k, Xclim.Module.Obj.ind i) ∈ m0.entries → Xclim.lookup? k objs = none →
        ¬ (k = "iter_indicators") →
        Xclim.lookup? k
            (Xclim.Module.build_indicator_module indicators regs name objs reload).2.2.entries =
          none ∧
        Xclim.lookup? i.registry_id
            (Xclim.Module.build_indicator_module indicators regs name objs reload).2.1.registry =
          none ∧
        i.classId ∉
          (Xclim.Module.build_indicator_module indicators regs name objs reload).2.1.instancesKeys) ∧
      (∀ k t, (k, Xclim.Module.Obj.other t) ∈ m0.entries → Xclim.lookup? k objs = none →
        ¬ (k = "iter_indicators") →
        Xclim.lookup? k
            (Xclim.Module.build_indicator_module indicators regs name objs reload).2.2.entries =
          some (Xclim.Module.Obj.other t))) := by
  have hkeysmapped : Xclim.keys (objs.map (fun kv => (kv.1, Xclim.Module.Obj.ind kv.2))) =
      Xclim.keys objs := Xclim.Module.keys_map_snd objs _
  have hnodmapped : (Xclim.keys (objs.map
      (fun kv => (kv.1, Xclim.Module.Obj.ind kv.2)))).Nodup := by
    rw [hkeysmapped]
    exact hobjs
  refine ⟨?_, ?_, ?_⟩
  · intro hnone
    have hb : Xclim.Module.build_indicator_module indicators regs name objs reload =
        (Xclim.setItem indicators name
          (Xclim.Module.add_iter_indicators
            { entries := Xclim.update []
                (objs.map (fun kv => (kv.1, Xclim.Module.Obj.ind kv.2))) }),
          regs,
          Xclim.Module.add_iter_indicators
            { entries := Xclim.update []
                (objs.map (fun kv => (kv.1, Xclim.Module.Obj.ind kv.2))) }) := by
      unfold Xclim.Module.build_indicator_module
      rw [hnone]
    rw [hb]
    refine ⟨Xclim.lookup?_setItem_self indicators name _, rfl, ?_, ?_⟩
    · intro kv hkv
      apply Xclim.Module.lookup?_addIter_of_some
      apply Xclim.lookup?_update_of_some _ _ _ _ hnodmapped
      rw [Xclim.lookup?_map_snd objs (Xclim.Module.Obj.ind) kv.1,
        Xclim.lookup?_of_mem_nodup objs kv.1 kv.2 hkv hobjs]
      rfl
    · intro n
      rw [Xclim.Module.mem_keys_addIter, Xclim.mem_keys_update, hkeysmapped]
      simp
  · intro m0 hsome hrel
    subst hrel
    have hb : Xclim.Module.build_indicator_module indicators regs name objs false =
        (Xclim.setItem indicators name
          (Xclim.Module.add_iter_indicators
            { entries := Xclim.update m0.entries
                (objs.map (fun kv => (kv.1, Xclim.Module.Obj.ind kv.2))) }),
          regs,
          Xclim.Module.add_iter_indicators
            { entries := Xclim.update m0.entries
                (objs.map (fun kv => (kv.1, Xclim.Module.Obj.ind kv.2))) }) := by
      unfold Xclim.Module.build_indicator_module
      rw [hsome]
      rfl
    rw [hb]
    refine ⟨Xclim.lookup?_setItem_self indicators name _, rfl, ?_, ?_⟩
    · intro kv hkv
      apply Xclim.Module.lookup?_addIter_of_some
      apply Xclim.lookup?_update_of_some _ _ _ _ hnodmapped
      rw [Xclim.lookup?_map_snd objs (Xclim.Module.Obj.ind) kv.1,
        Xclim.lookup?_of_mem_nodup objs kv.1 kv.2 hkv hobjs]
      rfl
    · intro k hknone hkiter
      rw [Xclim.Module.lookup?_addIter_ne _ k hkiter]
      apply Xclim.lookup?_update_of_none
      rw [Xclim.lookup?_map_snd objs (Xclim.Module.Obj.ind) k, hknone]
      rfl
  · intro m0 hsome hrel hm0
    subst hrel
    have hb : Xclim.Module.build_indicator_module indicators regs name objs true =
        (Xclim.setItem indicators name
          (Xclim.Module.add_iter_indicators
            { entries := Xclim.update (Xclim.Module.removeStale m0 objs regs).1.entries
                (objs.map (fun kv => (kv.1, Xclim.Module.Obj.ind kv.2))) }),
          (Xclim.Module.removeStale m0 objs regs).2,
          Xclim.Module.add_iter_indicators
            { entries := Xclim.update (Xclim.Module.removeStale m0 objs regs).1.entries
                (objs.map (fun kv => (kv.1, Xclim.Module.Obj.ind kv.2))) }) := by
      unfold Xclim.Module.build_indicator_module
      rw [hsome]
      rfl
    rw [hb]
    refine ⟨Xclim.lookup?_setItem_self indicators name _, ?_, ?_, ?_⟩
    · intro kv hkv
      apply Xclim.Module.lookup?_addIter_of_some
      apply Xclim.lookup?_update_of_some _ _ _ _ hnodmapped
      rw [Xclim.lookup?_map_snd objs (Xclim.Module.Obj.ind) kv.1,
        Xclim.lookup?_of_mem_nodup objs kv.1 kv.2 hkv hobjs]
      rfl
    · intro k i hmem hknone hkiter
      have hstale : (k, i) ∈ Xclim.Module.staleInds m0 objs :=
        Xclim.Module.mem_staleInds m0 objs k i hmem hknone
      refine ⟨?_, ?_, ?_⟩
      · rw [Xclim.Module.lookup?_addIter_ne _ k hkiter]
        rw [Xclim.lookup?_update_of_none]
        · show Xclim.lookup? k (m0.entries.filter
            (fun kv => ¬ (Xclim.Module.isStale objs kv = true))) = none
          have hl0 : Xclim.lookup? k m0.entries = some (Xclim.Module.Obj.ind i) :=
            Xclim.lookup?_of_mem_nodup m0.entries k _ hmem hm0
          rw [Xclim.lookup?_filter_of_some m0.entries _ k _ hm0 hl0]
          simp [Xclim.Module.isStale, hknone]
        · rw [Xclim.lookup?_map_snd objs (Xclim.Module.Obj.ind) k, hknone]
          rfl
      · show Xclim.lookup? i.registry_id (regs.registry.filter _) = none
        apply Xclim.lookup?_filter_none
        intro v
        have hany : (Xclim.Module.staleInds m0 objs).any
            (fun p => p.2.registry_id = i.registry_id) = true :=
          List.any_eq_true.mpr ⟨(k, i), hstale, by simp⟩
        simp [hany]
      · show i.classId ∉ regs.instancesKeys.filter _
        intro hc
        have hpred := (List.mem_filter.mp hc).2
        have hany : (Xclim.Module.staleInds m0 objs).any
            (fun p => p.2.classId = i.classId) = true :=
          List.any_eq_true.mpr ⟨(k, i), hstale, by simp⟩
        simp [hany] at hpred
    · intro k t hmem hknone hkiter
      rw [Xclim.Module.lookup?_addIter_ne _ k hkiter]
      rw [Xclim.lookup?_update_of_none]
      · show Xclim.lookup? k (m0.entries.filter
          (fun kv => ¬ (Xclim.Module.isStale objs kv = true))) = some (Xclim.Module.Obj.other t)
        have hl0 : Xclim.lookup? k m0.entries = some (Xclim.Module.Obj.other t) :=
          Xclim.lookup?_of_mem_nodup m0.entries k _ hmem hm0
        rw [Xclim.lookup?_filter_of_some m0.entries _ k _ hm0 hl0]
        simp [Xclim.Module.isStale]
      · rw [Xclim.lookup?_map_snd objs (Xclim.Module.Obj.ind) k, hknone]
        rfl

namespace Xclim.Module

/-- Stale indicator instance of the C5 witness module. -/
def oldIndW : Ind := { registry_id := "agro.OLD_IND", classId := 1 }

/-- Existing module for the C5 witness: one indicator, the iterator, a
non-indicator member. -/
def m0W : ModuleT :=
  { entries := [("old_ind", Obj.ind oldIndW),
    ("iter_indicators", Obj.other "iter_indicators"), ("note", Obj.other "n")] }

/-- Existing `xclim.indicators` table for the C5 witness. -/
def indicatorsW : List (String × ModuleT) := [("agro", m0W)]

/-- Registries for the C5 witness. -/
def regsW : Registries :=
  { registry := [("agro.OLD_IND", 1), ("agro.KEEP", 2)], instancesKeys := [1, 2] }

/-- New objects for the C5 witness: one indicator keyed by its identifier. -/
def objsW : List (String × Ind) := [("new_ind", { registry_id := "agro.NEW_IND", classId := 3 })]

end Xclim.Module

/-- C5 witness: rebuilding the existing module "agro" with `reload = True`
and one new indicator removes the stale indicator `old_ind` from the module
and from both registries. -/
theorem build_module_spec_witness :
    (Xclim.keys Xclim.Module.objsW).Nodup ∧
      Xclim.lookup? "agro" Xclim.Module.indicatorsW = some Xclim.Module.m0W ∧
      (Xclim.keys Xclim.Module.m0W.entries).Nodup ∧
      ("old_ind", Xclim.Module.Obj.ind Xclim.Module.oldIndW) ∈ Xclim.Module.m0W.entries ∧
      Xclim.lookup? "old_ind" Xclim.Module.objsW = none ∧
      (Xclim.lookup? "old_ind"
          (Xclim.Module.build_indicator_module Xclim.Module.indicatorsW Xclim.Module.regsW
            "agro" Xclim.Module.objsW true).2.2.entries = none ∧
        Xclim.lookup? Xclim.Module.oldIndW.registry_id
          (Xclim.Module.build_indicator_module Xclim.Module.indicatorsW Xclim.Module.regsW
            "agro" Xclim.Module.objsW true).2.1.registry = none ∧
        Xclim.Module.oldIndW.classId ∉
          (Xclim.Module.build_indicator_module Xclim.Module.indicatorsW Xclim.Module.regsW
            "agro" Xclim.Module.objsW true).2.1.instancesKeys) :=
  ⟨by decide, rfl, by decide, by decide, rfl,
    ((build_module_spec Xclim.Module.indicatorsW Xclim.Module.regsW "agro" Xclim.Module.objsW
        true (by decide)).2.2 Xclim.Module.m0W rfl rfl (by decide)).2.2.1
      "old_ind" Xclim.Module.oldIndW (by decide) rfl (by decide)⟩

namespace Xclim.Meta

/-! ## Output metadata finalization (`Indicator.__call__`, `_update_attrs`,
`_format`)

Source, `xclim/core/indicator.py` (as-dataset off, keep-attrs off, no
locales, no `units_metadata`):

    attrs.update(units=out.units)
    attrs.update(self._update_attrs(params, das, base_attrs, names=self._cf_names, ...))
    outs = [convert_units_to(out, attrs, self.context) ...]
    ...
    var_name = attrs.pop("var_name")
    out.attrs.update(attrs)
    out.name = var_name

and `_update_attrs` formats the `cf_attrs` templates with the call arguments
(`_format`), then sets `cell_methods` (merged from the inputs plus the
formatted one) and `history` (`update_history` of the call record and the
inputs), and lays the formatted attributes over those. The templating engine
(`AttrFormatter.format`, `xclim.core.formatting`, outside `src/`) is the
opaque `fmt` (the call arguments folded in), Python `.strip().capitalize()`
the opaque `cap`, and the unit conversion of the data the opaque `conv`. -/

/-- Text fields formatted as free text, `Indicator._text_fields`. -/
def _text_fields : List String := ["long_name", "description", "comment"]

/-- Compute output: name, units, attrs dict, and its data. -/
structure OutArr (D : Type) where
  name : String
  units : String
  attrs : List (String × String)
  data : D

/-- Embedding of `Indicator._format`: every attribute value is templated, and
text fields additionally stripped/capitalized. -/
def _format (fmt cap : String → String) (attrs : List (String × String)) :
    List (String × String) :=
  attrs.map (fun kv => (kv.1, if kv.1 ∈ _text_fields then cap (fmt kv.2) else fmt kv.2))

/-- Modelled from the spec: `update_history` (`xclim.core.formatting`, not
under `src/`) merges the `history` attributes of the inputs and appends the
record of this indicator call on a new line. -/
def update_history (histLine : String) (dasHists : List String) : String :=
  match dasHists with
  | [] => histLine
  | _ => String.intercalate "\n" dasHists ++ "\n" ++ histLine

/-- Embedding of `Indicator._update_attrs` (no locales): format the
`cf_attrs` templates, merge `cell_methods`, set `history`, and lay the
formatted attributes (with `cell_methods` popped) over those.
`dasCellMethods` stands for `merge_attributes("cell_methods", **das)`. -/
def _update_attrs (fmt cap : String → String) (dasCellMethods histLine : String)
    (dasHists : List String) (base_attrs : List (String × String)) :
    List (String × String) :=
  let out := _format fmt cap base_attrs
  let cm := match lookup? "cell_methods" out with
    | some c => dasCellMethods ++ " " ++ c
    | none => dasCellMethods
  update [("cell_methods", cm), ("history", update_history histLine dasHists)]
    (Xclim.Module.delKey out "cell_methods")

/-- Modelled from the spec: `convert_units_to(out, attrs, context)`
(`xclim.core.units`, not under `src/`) converts the data to the units
recorded in `attrs` and stamps those units. -/
def convert_units_to {D : Type} (conv : D → String → D) (o : OutArr D)
    (attrs : List (String × String)) : OutArr D :=
  let target := (lookup? "units" attrs).getD o.units
  { name := o.name, units := target, attrs := o.attrs, data := conv o.data target }

/-- Embedding of the per-output metadata finalization in
`Indicator.__call__`: default the units, lay the templated attributes over,
convert the units, pop `var_name`, update the output's attributes and set
its name. -/
def finalizeOutput {D : Type} (conv : D → String → D) (fmt cap : String → String)
    (dasCellMethods histLine : String) (dasHists : List String)
    (base_attrs : List (String × String)) (out : OutArr D) : OutArr D :=
  let attrs1 := update [("units", out.units)]
    (_update_attrs fmt cap dasCellMethods histLine dasHists base_attrs)
  let out1 := convert_units_to conv out attrs1
  let var_name := (lookup? "var_name" attrs1).getD ""
  let attrs2 := Xclim.Module.delKey attrs1 "var_name"
  { name := var_name, units := out1.units,
    attrs := update out1.attrs attrs2, data := out1.data }

/-- Deleting one key leaves other lookups unchanged. -/
theorem lookup?_delKey_ne {V : Type} (d : List (String × V)) (k k' : String)
    (h : ¬ (k' = k)) : lookup? k' (Xclim.Module.delKey d k) = lookup? k' d := by
  induction d with
  | nil => rfl
  | cons p rest ih =>
    obtain ⟨k0, v0⟩ := p
    by_cases h0 : k0 = k
    · subst h0
      have hstep : Xclim.Module.delKey ((k0, v0) :: rest) k0 =
          Xclim.Module.delKey rest k0 := by
        simp [Xclim.Module.delKey, List.filter_cons]
      rw [hstep, ih]
      have hne : ¬ (k0 = k') := fun he => h (Eq.symm he)
      simp [lookup?, hne]
    · have hstep : Xclim.Module.delKey ((k0, v0) :: rest) k =
          (k0, v0) :: Xclim.Module.delKey rest k := by
        simp [Xclim.Module.delKey, List.filter_cons, h0]
      rw [hstep]
      by_cases h1 : k0 = k'
      · simp [lookup?, h1]
      · simp only [lookup?, if_neg h1]
        exact ih

/-- Deleting a key removes its binding. -/
theorem lookup?_delKey_self {V : Type} (d : List (String × V)) (k : String) :
    lookup? k (Xclim.Module.delKey d k) = none := by
  apply lookup?_filter_none
  intro v
  simp

/-- `delKey` keeps distinct keys distinct. -/
theorem nodup_keys_delKey {V : Type} (d : List (String × V)) (k : String)
    (h : (keys d).Nodup) : (keys (Xclim.Module.delKey d k)).Nodup :=
  ((List.filter_sublist d).map Prod.fst).nodup h

/-- Lookup in the formatted attributes. -/
theorem lookup?_format (fmt cap : String → String) (base : List (String × String))
    (k : String) :
    lookup? k (_format fmt cap base) =
      (lookup? k base).map (fun v => if k ∈ _text_fields then cap (fmt v) else fmt v) :=
  lookup?_map_keyfun base (fun k' v => if k' ∈ _text_fields then cap (fmt v) else fmt v) k

/-- Formatting preserves the attribute keys. -/
theorem keys_format (fmt cap : String → String) (base : List (String × String)) :
    keys (_format fmt cap base) = keys base :=
  keys_map_keyfun base (fun k' v => if k' ∈ _text_fields then cap (fmt v) else fmt v)

/-- A formatted attribute other than `cell_methods` survives `_update_attrs`. -/
theorem lookup?_update_attrs_of_some (fmt cap : String → String)
    (dcm hl : String) (dhs : List String) (base : List (String × String))
    (k : String) (w : String) (hk : ¬ (k = "cell_methods"))
    (hnod : (keys base).Nodup)
    (hw : lookup? k (_format fmt cap base) = some w) :
    lookup? k (_update_attrs fmt cap dcm hl dhs base) = some w := by
  unfold _update_attrs
  apply lookup?_update_of_some
  · apply nodup_keys_delKey
    rw [keys_format]
    exact hnod
  · rw [lookup?_delKey_ne _ _ _ hk]
    exact hw

/-- The `history` attribute produced by `_update_attrs` when `cf_attrs` does
not template one. -/
theorem lookup?_update_attrs_history (fmt cap : String → String)
    (dcm hl : String) (dhs : List String) (base : List (String × String))
    (hhist : lookup? "history" base = none) :
    lookup? "history" (_update_attrs fmt cap dcm hl dhs base) =
      some (update_history hl dhs) := by
  have hnone : lookup? "history"
      (Xclim.Module.delKey (_format fmt cap base) "cell_methods") = none := by
    rw [lookup?_delKey_ne _ "cell_methods" "history" (by decide), lookup?_format, hhist]
    rfl
  unfold _update_attrs
  rw [lookup?_update_of_none _ _ _ hnone]
  rfl

/-- An attribute absent from `cf_attrs` (and distinct from `cell_methods`
and `history`) is absent from `_update_attrs`. -/
theorem lookup?_update_attrs_of_none (fmt cap : String → String)
    (dcm hl : String) (dhs : List String) (base : List (String × String))
    (k : String) (hk : ¬ (k = "cell_methods")) (hk2 : ¬ (k = "history"))
    (hw : lookup? k base = none) :
    lookup? k (_update_attrs fmt cap dcm hl dhs base) = none := by
  have hnone : lookup? k
      (Xclim.Module.delKey (_format fmt cap base) "cell_methods") = none := by
    rw [lookup?_delKey_ne _ _ _ hk, lookup?_format, hw]
    rfl
  unfold _update_attrs
  rw [lookup?_update_of_none _ _ _ hnone]
  show (if "cell_methods" = k then _ else if "history" = k then _ else none) = none
  rw [if_neg (fun h => hk (Eq.symm h)), if_neg (fun h => hk2 (Eq.symm h))]

/-- The keys of `_update_attrs` are distinct. -/
theorem nodup_keys_update_attrs (fmt cap : String → String)
    (dcm hl : String) (dhs : List String) (base : List (String × String)) :
    (keys (_update_attrs fmt cap dcm hl dhs base)).Nodup := by
  unfold _update_attrs
  apply nodup_keys_update
  simp [keys]

/-- Unfolded form of `finalizeOutput`. -/
theorem finalizeOutput_def {D : Type} (conv : D → String → D) (fmt cap : String → String)
    (dcm hl : String) (dhs : List String) (base : List (String × String))
    (out : OutArr D) :
    finalizeOutput conv fmt cap dcm hl dhs base out =
      { name := (lookup? "var_name" (update [("units", out.units)]
            (_update_attrs fmt cap dcm hl dhs base))).getD "",
        units := (lookup? "units" (update [("units", out.units)]
            (_update_attrs fmt cap dcm hl dhs base))).getD out.units,
        attrs := update out.attrs (Xclim.Module.delKey (update [("units", out.units)]
            (_update_attrs fmt cap dcm hl dhs base)) "var_name"),
        data := conv out.data ((lookup? "units" (update [("units", out.units)]
            (_update_attrs fmt cap dcm hl dhs base))).getD out.units) } := rfl

end Xclim.Meta

/-- C3: on a successful call (as-dataset off), each returned output is named
after the templated `var_name` of its `cf_attrs` entry, its units (and data)
are converted to the units recorded in the formatted output attributes (the
templated `cf_attrs` units when present, the compute output's units
otherwise), its attributes gain every templated CF attribute (text fields
capitalized), and a `history` attribute appends the record of this call to
the merged histories of the inputs. -/
theorem output_metadata_finalized {D : Type} (conv : D → String → D)
    (fmt cap : String → String) (dcm hl : String) (dhs : List String)
    (base : List (String × String)) (out : Xclim.Meta.OutArr D) (vn : String)
    (hnod : (Xclim.keys base).Nodup)
    (hvar : Xclim.lookup? "var_name" base = some vn)
    (hhist : Xclim.lookup? "history" base = none) :
    (Xclim.Meta.finalizeOutput conv fmt cap dcm hl dhs base out).name = fmt vn ∧
    (∀ u, Xclim.lookup? "units" base = some u →
      (Xclim.Meta.finalizeOutput conv fmt cap dcm hl dhs base out).units = fmt u ∧
      (Xclim.Meta.finalizeOutput conv fmt cap dcm hl dhs base out).data =
        conv out.data (fmt u)) ∧
    (Xclim.lookup? "units" base = none →
      (Xclim.Meta.finalizeOutput conv fmt cap dcm hl dhs base out).units = out.units ∧
      (Xclim.Meta.finalizeOutput conv fmt cap dcm hl dhs base out).data =
        conv out.data out.units) ∧
    (∀ k v, Xclim.lookup? k base = some v → ¬ (k = "var_name") → ¬ (k = "cell_methods") →
      Xclim.lookup? k (Xclim.Meta.finalizeOutput conv fmt cap dcm hl dhs base out).attrs =
        some (if k ∈ Xclim.Meta._text_fields then cap (fmt v) else fmt v)) ∧
    Xclim.lookup? "history"
        (Xclim.Meta.finalizeOutput conv fmt cap dcm hl dhs base out).attrs =
      some (Xclim.Meta.update_history hl dhs) := by
  rw [Xclim.Meta.finalizeOutput_def]
  set A1 : List (String × String) := Xclim.update [("units", out.units)]
    (Xclim.Meta._update_attrs fmt cap dcm hl dhs base) with hA1def
  have hUAnodup : (Xclim.keys (Xclim.Meta._update_attrs fmt cap dcm hl dhs base)).Nodup :=
    Xclim.Meta.nodup_keys_update_attrs fmt cap dcm hl dhs base
  have hA1nodup : (Xclim.keys A1).Nodup := by
    rw [hA1def]
    exact Xclim.nodup_keys_update _ _ (by simp [Xclim.keys])
  have hsomeA1 : ∀ k w, ¬ (k = "cell_methods") →
      Xclim.lookup? k (Xclim.Meta._format fmt cap base) = some w →
      Xclim.lookup? k A1 = some w := by
    intro k w hk hw
    rw [hA1def]
    exact Xclim.lookup?_update_of_some _ _ _ _ hUAnodup
      (Xclim.Meta.lookup?_update_attrs_of_some fmt cap dcm hl dhs base k w hk hnod hw)
  have hfmtvar : Xclim.lookup? "var_name" (Xclim.Meta._format fmt cap base) =
      some (fmt vn) := by
    rw [Xclim.Meta.lookup?_format, hvar]
    show some (if "var_name" ∈ Xclim.Meta._text_fields then cap (fmt vn) else fmt vn) = _
    rw [if_neg (by decide)]
  have hvarA1 : Xclim.lookup? "var_name" A1 = some (fmt vn) :=
    hsomeA1 "var_name" (fmt vn) (by decide) hfmtvar
  refine ⟨?_, ?_, ?_, ?_, ?_⟩
  · show (Xclim.lookup? "var_name" A1).getD "" = fmt vn
    rw [hvarA1]
    rfl
  · intro u hu
    have hfmtu : Xclim.lookup? "units" (Xclim.Meta._format fmt cap base) = some (fmt u) := by
      rw [Xclim.Meta.lookup?_format, hu]
      show some (if "units" ∈ Xclim.Meta._text_fields then cap (fmt u) else fmt u) = _
      rw [if_neg (by decide)]
    have huA1 : Xclim.lookup? "units" A1 = some (fmt u) :=
      hsomeA1 "units" (fmt u) (by decide) hfmtu
    constructor
    · show (Xclim.lookup? "units" A1).getD out.units = fmt u
      rw [huA1]
      rfl
    · show conv out.data ((Xclim.lookup? "units" A1).getD out.units) = _
      rw [huA1]
      rfl
  · intro hu
    have hUAnone : Xclim.lookup? "units"
        (Xclim.Meta._update_attrs fmt cap dcm hl dhs base) = none :=
      Xclim.Meta.lookup?_update_attrs_of_none fmt cap dcm hl dhs base "units"
        (by decide) (by decide) hu
    have huA1 : Xclim.lookup? "units" A1 = some out.units := by
      rw [hA1def, Xclim.lookup?_update_of_none _ _ _ hUAnone]
      rfl
    constructor
    · show (Xclim.lookup? "units" A1).getD out.units = out.units
      rw [huA1]
      rfl
    · show conv out.data ((Xclim.lookup? "units" A1).getD out.units) = _
      rw [huA1]
      rfl
  · intro k v hkv hkvar hkcm
    have hfmtk : Xclim.lookup? k (Xclim.Meta._format fmt cap base) =
        some (if k ∈ Xclim.Meta._text_fields then cap (fmt v) else fmt v) := by
      rw [Xclim.Meta.lookup?_format, hkv]
      rfl
    have hkA1 : Xclim.lookup? k A1 =
        some (if k ∈ Xclim.Meta._text_fields then cap (fmt v) else fmt v) :=
      hsomeA1 k _ hkcm hfmtk
    have hk2 : Xclim.lookup? k (Xclim.Module.delKey A1 "var_name") =
        some (if k ∈ Xclim.Meta._text_fields then cap (fmt v) else fmt v) := by
      rw [Xclim.Meta.lookup?_delKey_ne A1 "var_name" k hkvar]
      exact hkA1
    exact Xclim.lookup?_update_of_some _ _ _ _
      (Xclim.Meta.nodup_keys_delKey A1 "var_name" hA1nodup) hk2
  · have hUAhist : Xclim.lookup? "history"
        (Xclim.Meta._update_attrs fmt cap dcm hl dhs base) =
        some (Xclim.Meta.update_history hl dhs) :=
      Xclim.Meta.lookup?_update_attrs_history fmt cap dcm hl dhs base hhist
    have hhA1 : Xclim.lookup? "history" A1 = some (Xclim.Meta.update_history hl dhs) := by
      rw [hA1def]
      exact Xclim.lookup?_update_of_some _ _ _ _ hUAnodup hUAhist
    have hh2 : Xclim.lookup? "history" (Xclim.Module.delKey A1 "var_name") =
        some (Xclim.Meta.update_history hl dhs) := by
      rw [Xclim.Meta.lookup?_delKey_ne A1 "var_name" "history" (by decide)]
      exact hhA1
    exact Xclim.lookup?_update_of_some _ _ _ _
      (Xclim.Meta.nodup_keys_delKey A1 "var_name" hA1nodup) hh2

namespace Xclim.Meta

/-- `cf_attrs` entry for the C3 witness. -/
def baseW : List (String × String) :=
  [("var_name", "tg"), ("units", "K"), ("long_name", "mean temperature")]

/-- Compute output for the C3 witness. -/
def outW : OutArr Nat := { name := "", units := "degC", attrs := [("src", "x")], data := 5 }

end Xclim.Meta

/-- C3 witness: the finalization theorem applied to a one-output indicator
with templated `var_name`, `units` and `long_name`, a marker templating
function and a length-dependent unit conversion of the data. -/
theorem output_metadata_finalized_witness :
    (Xclim.keys Xclim.Meta.baseW).Nodup ∧
      Xclim.lookup? "var_name" Xclim.Meta.baseW = some "tg" ∧
      Xclim.lookup? "history" Xclim.Meta.baseW = none ∧
      ((Xclim.Meta.finalizeOutput (fun d u => d + u.length) (fun t => t ++ "*")
          (fun t => "C" ++ t) "time: mean" "tg(tas)" ["h1", "h2"]
          Xclim.Meta.baseW Xclim.Meta.outW).name = (fun t => t ++ "*") "tg" ∧
        (∀ u, Xclim.lookup? "units" Xclim.Meta.baseW = some u →
          (Xclim.Meta.finalizeOutput (fun d u => d + u.length) (fun t => t ++ "*")
            (fun t => "C" ++ t) "time: mean" "tg(tas)" ["h1", "h2"]
            Xclim.Meta.baseW Xclim.Meta.outW).units = (fun t => t ++ "*") u ∧
          (Xclim.Meta.finalizeOutput (fun d u => d + u.length) (fun t => t ++ "*")
            (fun t => "C" ++ t) "time: mean" "tg(tas)" ["h1", "h2"]
            Xclim.Meta.baseW Xclim.Meta.outW).data =
            (fun (d : Nat) (u : String) => d + u.length) Xclim.Meta.outW.data
              ((fun t => t ++ "*") u)) ∧
        (Xclim.lookup? "units" Xclim.Meta.baseW = none →
          (Xclim.Meta.finalizeOutput (fun d u => d + u.length) (fun t => t ++ "*")
            (fun t => "C" ++ t) "time: mean" "tg(tas)" ["h1", "h2"]
            Xclim.Meta.baseW Xclim.Meta.outW).units = Xclim.Meta.outW.units ∧
          (Xclim.Meta.finalizeOutput (fun d u => d + u.length) (fun t => t ++ "*")
            (fun t => "C" ++ t) "time: mean" "tg(tas)" ["h1", "h2"]
            Xclim.Meta.baseW Xclim.Meta.outW).data =
            (fun (d : Nat) (u : String) => d + u.length) Xclim.Meta.outW.data
              Xclim.Meta.outW.units) ∧
        (∀ k v, Xclim.lookup? k Xclim.Meta.baseW = some v → ¬ (k = "var_name") →
          ¬ (k = "cell_methods") →
          Xclim.lookup? k (Xclim.Meta.finalizeOutput (fun d u => d + u.length)
            (fun t => t ++ "*") (fun t => "C" ++ t) "time: mean" "tg(tas)" ["h1", "h2"]
            Xclim.Meta.baseW Xclim.Meta.outW).attrs =
            some (if k ∈ Xclim.Meta._text_fields then ("C" ++ (v ++ "*")) else (v ++ "*"))) ∧
        Xclim.lookup? "history" (Xclim.Meta.finalizeOutput (fun d u => d + u.length)
            (fun t => t ++ "*") (fun t => "C" ++ t) "time: mean" "tg(tas)" ["h1", "h2"]
            Xclim.Meta.baseW Xclim.Meta.outW).attrs =
          some (Xclim.Meta.update_history "tg(tas)" ["h1", "h2"])) :=
  ⟨by decide, rfl, rfl,
    output_metadata_finalized (fun d u => d + u.length) (fun t => t ++ "*")
      (fun t => "C" ++ t) "time: mean" "tg(tas)" ["h1", "h2"]
      Xclim.Meta.baseW Xclim.Meta.outW "tg" (by decide) rfl rfl⟩

/-- C10 counterexample: the unrestricted half of the claim is false. For the
dictionary `{0: 5, 1: 5}` (pairwise-distinct keys, duplicated value `5`),
`reverse_dict` maps the value `5` of the pair `(0, 5)` to `1`, not to its key
`0`: the comprehension lets the later pair overwrite the earlier one. -/
theorem reverse_dict_not_inverse_cex :
    (Xclim.keys Xclim.rdCex).Nodup ∧ (0, 5) ∈ Xclim.rdCex ∧
      Xclim.lookup? 5 (Xclim.reverse_dict Xclim.rdCex) ≠ some 0 := by
  decide

/-- C10 (amended): for every dictionary `d` with pairwise-distinct keys and
pairwise-distinct values, `reverse_dict d` maps each value of `d` to its key,
and applying `reverse_dict` twice returns a dictionary equal to the original
(round-trip identity). -/
theorem reverse_dict_roundtrip {α β : Type} [DecidableEq α] [DecidableEq β]
    (d : List (α × β)) (hk : (Xclim.keys d).Nodup) (hv : (Xclim.vals d).Nodup) :
    (∀ kv ∈ d, Xclim.lookup? kv.2 (Xclim.reverse_dict d) = some kv.1) ∧
      Xclim.reverse_dict (Xclim.reverse_dict d) = d := by
  have hswap : Xclim.reverse_dict d = d.map (fun kv => (kv.2, kv.1)) := by
    unfold Xclim.reverse_dict
    apply Xclim.fromPairs_of_nodup
    simpa [Xclim.keys, Xclim.vals, Function.comp] using hv
  constructor
  · intro kv hmem
    rw [hswap]
    exact Xclim.lookup?_map_swap d kv.1 kv.2 hv hmem
  · have hswap2 : Xclim.reverse_dict (Xclim.reverse_dict d) =
        (Xclim.reverse_dict d).map (fun kv => (kv.2, kv.1)) := by
      unfold Xclim.reverse_dict
      apply Xclim.fromPairs_of_nodup
      rw [show Xclim.fromPairs (d.map fun kv => (kv.2, kv.1)) = Xclim.reverse_dict d from rfl,
        hswap]
      simpa [Xclim.keys, Function.comp] using hk
    rw [hswap2, hswap]
    exact Xclim.map_swap_swap d

/-- C10 witness: the round-trip theorem applied to the concrete dictionary
`{1: 10, 2: 20}`. -/
theorem reverse_dict_roundtrip_witness :
    (Xclim.keys [(1, 10), (2, 20)]).Nodup ∧ (Xclim.vals [(1, 10), (2, 20)]).Nodup ∧
      ((∀ kv ∈ [(1, 10), (2, 20)], Xclim.lookup? kv.2 (Xclim.reverse_dict [(1, 10), (2, 20)]) = some kv.1) ∧
        Xclim.reverse_dict (Xclim.reverse_dict [(1, 10), (2, 20)]) = [(1, 10), (2, 20)]) :=
  ⟨by decide, by decide, reverse_dict_roundtrip [(1, 10), (2, 20)] (by decide) (by decide)⟩
